import Mathlib

/-!
# haven: the data-frame builder of `src/DfBuilder.cpp`

A shallow embedding of `LabelSet`, `DfBuilder` and the four decoder callbacks, followed by
theorems about them.

Conventions of the embedding

* C `int` values are `Int`; indices are compared against vector lengths before every access.
* Handlers that can leave by a C++ exception, an R error or an access outside a vector return
  `Except Fault _`; a normal return carries the new builder state and the `int` status.
* An R vector is its list of cells plus the one attribute the builder ever puts on a column
  (`"label"`); the result list carries the three attributes `output()` sets.
* A `double` is its IEEE-754 binary64 bit pattern, so that `NA_REAL` (a NaN with payload 1954)
  is an ordinary value that can be compared.
-/

namespace Haven

/-! ## Host values -/

/-- The element types of `readstat_types_t` that the builder dispatches on. -/
inductive readstat_types_t
  | READSTAT_TYPE_LONG_STRING
  | READSTAT_TYPE_STRING
  | READSTAT_TYPE_CHAR
  | READSTAT_TYPE_INT16
  | READSTAT_TYPE_INT32
  | READSTAT_TYPE_FLOAT
  | READSTAT_TYPE_DOUBLE
  deriving DecidableEq, Repr

/-- A C `double`, by its binary64 bit pattern. -/
structure double where
  bits : Nat
  deriving DecidableEq, Repr

/-- R's missing integer, `INT_MIN`. -/
def NA_INTEGER : Int := -2147483648

/-- R's missing real: the NaN whose low word is 1954. -/
def NA_REAL : double := ⟨0x7FF00000000007A2⟩

/-- The real number zero, `+0.0`. -/
def double.zero : double := ⟨0⟩

/-- IEEE-754 NaN test on a bit pattern: exponent all ones, mantissa not zero. -/
def double.isNaN (d : double) : Bool :=
  d.bits / 2 ^ 52 % 2 ^ 11 == 2 ^ 11 - 1 && d.bits % 2 ^ 52 != 0

/-- Ways a handler can leave other than by `return`. -/
inductive Fault
  /-- `checkUserInterrupt()` found a pending interrupt and threw. -/
  | interrupted
  /-- Rcpp refused to view an object as the requested vector type. -/
  | not_compatible
  /-- An R-level error (a vector of negative length was requested, an attribute on `NULL`). -/
  | r_error
  /-- An element access outside the vector: undefined in the source, not modelled further. -/
  | out_of_bounds
  deriving DecidableEq, Repr

/-- The datum behind the decoder's `void *value`, given by what each readstat accessor
returns on it.  The accessors are independent observations: the builder decides which of
them to consult. -/
structure readstat_value where
  missing : Bool
  str : String
  chr : Char
  i16 : Int
  i32 : Int
  /-- The `float` that `readstat_float_value` returns, written as the `double` it converts
  to on assignment to a real cell (the conversion is exact). -/
  flt : double
  dbl : double
  deriving DecidableEq, Repr

/-- Accessor `readstat_value_is_missing`. -/
def readstat_value_is_missing (value : readstat_value) : Bool := value.missing

/-- Accessor `readstat_string_value`. -/
def readstat_string_value (value : readstat_value) : String := value.str

/-- Accessor `readstat_char_value`. -/
def readstat_char_value (value : readstat_value) : Char := value.chr

/-- Accessor `readstat_int16_value`; the result is an `int16_t`. -/
def readstat_int16_value (value : readstat_value) : Int := Int.bmod value.i16 (2 ^ 16)

/-- Accessor `readstat_int32_value`; the result is an `int32_t`. -/
def readstat_int32_value (value : readstat_value) : Int := Int.bmod value.i32 (2 ^ 32)

/-- Accessor `readstat_float_value`, after the implicit widening to `double`. -/
def readstat_float_value (value : readstat_value) : double := value.flt

/-- Accessor `readstat_double_value`. -/
def readstat_double_value (value : readstat_value) : double := value.dbl

/-- An R object as the builder uses it: `NULL`, or a character, integer or real vector with
its optional `"label"` attribute. -/
inductive SEXP
  | NilValue
  | STRSXP (cells : List String) (label : Option String)
  | INTSXP (cells : List Int) (label : Option String)
  | REALSXP (cells : List double) (label : Option String)
  deriving DecidableEq, Repr

/-- Number of cells of a vector; `NULL` has none. -/
def SEXP.length : SEXP → Nat
  | .NilValue => 0
  | .STRSXP cells _ => cells.length
  | .INTSXP cells _ => cells.length
  | .REALSXP cells _ => cells.length

/-- The `"label"` attribute, when the object carries one. -/
def SEXP.label : SEXP → Option String
  | .NilValue => none
  | .STRSXP _ l => l
  | .INTSXP _ l => l
  | .REALSXP _ l => l

/-- The three vector kinds a column can have. -/
inductive Kind
  | text
  | integer
  | real
  deriving DecidableEq, Repr

/-- Kind of a column; `NULL` has none. -/
def SEXP.kind : SEXP → Option Kind
  | .NilValue => none
  | .STRSXP _ _ => some .text
  | .INTSXP _ _ => some .integer
  | .REALSXP _ _ => some .real

/-- An Rcpp `List` with the attributes `output()` attaches. -/
structure RList where
  elts : List SEXP
  names : Option (List String)
  class_ : Option (List String)
  row_names : Option (List Int)
  deriving DecidableEq, Repr

/-- `List(n)`: `n` slots holding `NULL`, no attributes; a negative `n` is an R error. -/
def RList.new (n : Int) : Except Fault RList :=
  if n < 0 then .error .r_error
  else .ok { elts := List.replicate n.toNat .NilValue, names := none, class_ := none,
             row_names := none }

/-- `CharacterVector(n)`: `n` empty strings. -/
def CharacterVector (n : Int) : Except Fault (List String) :=
  if n < 0 then .error .r_error else .ok (List.replicate n.toNat "")

/-- `IntegerVector(n)`: Rcpp fills a sized integer vector with `0`. -/
def IntegerVector (n : Int) : Except Fault (List Int) :=
  if n < 0 then .error .r_error else .ok (List.replicate n.toNat 0)

/-- `NumericVector(n)`: Rcpp fills a sized real vector with `0.0`. -/
def NumericVector (n : Int) : Except Fault (List double) :=
  if n < 0 then .error .r_error else .ok (List.replicate n.toNat double.zero)

/-- Read `xs[i]`. -/
def get_elt {α : Type} (xs : List α) (i : Int) : Except Fault α :=
  if i < 0 then .error .out_of_bounds
  else match xs[i.toNat]? with
    | some a => .ok a
    | none => .error .out_of_bounds

/-- Write `xs[i] = a`. -/
def set_elt {α : Type} (xs : List α) (i : Int) (a : α) : Except Fault (List α) :=
  if 0 ≤ i ∧ i < xs.length then .ok (xs.set i.toNat a) else .error .out_of_bounds

/-- `x.attr("label") = l` on a column. -/
def SEXP.attr_label (x : SEXP) (l : String) : Except Fault SEXP :=
  match x with
  | .NilValue => .error .r_error
  | .STRSXP cells _ => .ok (.STRSXP cells (some l))
  | .INTSXP cells _ => .ok (.INTSXP cells (some l))
  | .REALSXP cells _ => .ok (.REALSXP cells (some l))

/-- Modelled from the spec: the conversion Rcpp applies when a `char` is assigned to a cell of
a character vector (the overload lives in `Rcpp.h`, which is not part of the sources); the
spec has it "coerced to a one-character text". -/
def char_to_text (c : Char) : String := String.singleton c

/-- `CharacterVector col = x; col[i] = s;` seen from `x`.  A character vector is aliased and
written in place.  An integer or real vector is first converted to a fresh character
vector of the same length, so the write lands in the temporary (whose content is of no
consequence and stands as empty strings here) and `x` keeps its cells.  `NULL` is refused. -/
def assign_string (x : SEXP) (i : Int) (s : String) : Except Fault SEXP :=
  match x with
  | .NilValue => .error .not_compatible
  | .STRSXP cells l => do
      let cells ← set_elt cells i s
      pure (.STRSXP cells l)
  | .INTSXP cells l => do
      let _ ← set_elt (cells.map fun _ => "") i s
      pure (.INTSXP cells l)
  | .REALSXP cells l => do
      let _ ← set_elt (cells.map fun _ => "") i s
      pure (.REALSXP cells l)

/-- `IntegerVector col = x; col[i] = n;` seen from `x`.  An integer vector is written in
place, a real vector is copied first, a character vector and `NULL` are refused. -/
def assign_int (x : SEXP) (i : Int) (n : Int) : Except Fault SEXP :=
  match x with
  | .NilValue => .error .not_compatible
  | .STRSXP _ _ => .error .not_compatible
  | .INTSXP cells l => do
      let cells ← set_elt cells i n
      pure (.INTSXP cells l)
  | .REALSXP cells l => do
      let _ ← set_elt (cells.map fun _ => (0 : Int)) i n
      pure (.REALSXP cells l)

/-- `NumericVector col = x; col[i] = d;` seen from `x`.  A real vector is written in place,
an integer vector is copied first, a character vector and `NULL` are refused. -/
def assign_real (x : SEXP) (i : Int) (d : double) : Except Fault SEXP :=
  match x with
  | .NilValue => .error .not_compatible
  | .STRSXP _ _ => .error .not_compatible
  | .INTSXP cells l => do
      let _ ← set_elt (cells.map fun _ => double.zero) i d
      pure (.INTSXP cells l)
  | .REALSXP cells l => do
      let cells ← set_elt cells i d
      pure (.REALSXP cells l)

/-- Host primitive `checkUserInterrupt()`: throws when an interrupt is pending. -/
def checkUserInterrupt (interrupt_pending : Bool) : Except Fault Unit :=
  if interrupt_pending then .error .interrupted else .ok ()

/-! ## `LabelSet` -/

/-- Class `LabelSet`: two parallel vectors. -/
structure LabelSet where
  labels : List String
  values : List String
  deriving DecidableEq, Repr

/-- Constructor `LabelSet()`. -/
def LabelSet.new : LabelSet := { labels := [], values := [] }

/-- Method `LabelSet::add`: `push_back` on both vectors. -/
def LabelSet.add (s : LabelSet) (label value : String) : LabelSet :=
  { labels := s.labels ++ [label], values := s.values ++ [value] }

/-- Method `LabelSet::find_label`: position of the first equal label, else `-1`. -/
def LabelSet.find_label (s : LabelSet) (label : String) : Int :=
  let it := s.labels.indexOf label
  if it = s.labels.length then -1 else (it : Int)

/-! ## `DfBuilder` -/

/-- The fields of class `DfBuilder`. -/
structure DfBuilder where
  nrows_ : Int
  ncols_ : Int
  output_ : RList
  names_ : List String
  labels_ : List String
  val_labels_ : List String
  label_sets_ : List (String × LabelSet)
  deriving DecidableEq, Repr

/-- Constructor `DfBuilder()`: zero counts, default-constructed (empty) members. -/
def DfBuilder.new : DfBuilder :=
  { nrows_ := 0, ncols_ := 0,
    output_ := { elts := [], names := none, class_ := none, row_names := none },
    names_ := [], labels_ := [], val_labels_ := [], label_sets_ := [] }

/-- Method `DfBuilder::info`. -/
def DfBuilder.info (b : DfBuilder) (obs_count var_count : Int) :
    Except Fault (DfBuilder × Int) := do
  let output ← RList.new var_count
  let names ← CharacterVector var_count
  let labels ← CharacterVector var_count
  let val_labels ← CharacterVector var_count
  pure ({ b with nrows_ := obs_count, ncols_ := var_count, output_ := output,
                 names_ := names, labels_ := labels, val_labels_ := val_labels }, 0)

/-- The `switch` of `DfBuilder::variable`: the fresh column for a type. -/
def new_column (nrows : Int) : readstat_types_t → Except Fault SEXP
  | .READSTAT_TYPE_LONG_STRING
  | .READSTAT_TYPE_STRING
  | .READSTAT_TYPE_CHAR => do
      let cells ← CharacterVector nrows
      pure (.STRSXP cells none)
  | .READSTAT_TYPE_INT16
  | .READSTAT_TYPE_INT32 => do
      let cells ← IntegerVector nrows
      pure (.INTSXP cells none)
  | .READSTAT_TYPE_FLOAT
  | .READSTAT_TYPE_DOUBLE => do
      let cells ← NumericVector nrows
      pure (.REALSXP cells none)

/-- Method `DfBuilder::variable`.  A null `const char *` is `none`. -/
def DfBuilder.variable (b : DfBuilder) (index : Int) (var_name : String)
    (_var_format : Option String) (var_label : Option String) (val_labels : Option String)
    (type : readstat_types_t) : Except Fault (DfBuilder × Int) := do
  let names ← set_elt b.names_ index var_name
  let col ← new_column b.nrows_ type
  let elts ← set_elt b.output_.elts index col
  let (labels, elts) ←
    match var_label with
    | some l => do
        let labels ← set_elt b.labels_ index l
        let col ← get_elt elts index
        let col ← col.attr_label l
        let elts ← set_elt elts index col
        pure (labels, elts)
    | none => pure (b.labels_, elts)
  let val_labels ←
    match val_labels with
    | some r => set_elt b.val_labels_ index r
    | none => pure b.val_labels_
  pure ({ b with names_ := names, output_ := { b.output_ with elts := elts },
                 labels_ := labels, val_labels_ := val_labels }, 0)

/-- The test guarding the interrupt check in `DfBuilder::value`; `%` truncates in C. -/
def stride_boundary (obs_index var_index : Int) : Bool :=
  Int.tmod obs_index 1000 == 0 || Int.tmod var_index 1000 == 0

/-- The column of `output_[var_index]` after the assignment one branch of
`DfBuilder::value` performs through its typed view of it. -/
def assign_cell (col : SEXP) (obs_index : Int) (value : readstat_value) :
    readstat_types_t → Except Fault SEXP
  | .READSTAT_TYPE_LONG_STRING
  | .READSTAT_TYPE_STRING => assign_string col obs_index (readstat_string_value value)
  | .READSTAT_TYPE_CHAR => assign_string col obs_index (char_to_text (readstat_char_value value))
  | .READSTAT_TYPE_INT16 =>
      if readstat_value_is_missing value then assign_int col obs_index NA_INTEGER
      else assign_int col obs_index (readstat_int16_value value)
  | .READSTAT_TYPE_INT32 =>
      if readstat_value_is_missing value then assign_int col obs_index NA_INTEGER
      else assign_int col obs_index (readstat_int32_value value)
  | .READSTAT_TYPE_FLOAT =>
      if readstat_value_is_missing value then assign_real col obs_index NA_REAL
      else assign_real col obs_index (readstat_float_value value)
  | .READSTAT_TYPE_DOUBLE =>
      if readstat_value_is_missing value then assign_real col obs_index NA_REAL
      else assign_real col obs_index (readstat_double_value value)

/-- Method `DfBuilder::value`.  `interrupt_pending` is the host's interrupt flag at the time
of the call. -/
def DfBuilder.value (b : DfBuilder) (interrupt_pending : Bool) (obs_index var_index : Int)
    (value : readstat_value) (type : readstat_types_t) : Except Fault (DfBuilder × Int) := do
  if stride_boundary obs_index var_index then
    checkUserInterrupt interrupt_pending
  let col ← get_elt b.output_.elts var_index
  let col ← assign_cell col obs_index value type
  let elts ← set_elt b.output_.elts var_index col
  pure ({ b with output_ := { b.output_ with elts := elts } }, 0)

/-- Method `DfBuilder::value_label`: the body is `return 0;`. -/
def DfBuilder.value_label (b : DfBuilder) (_val_labels : String) (_value : readstat_value)
    (_type : readstat_types_t) (_label : String) : DfBuilder × Int :=
  (b, 0)

/-- Method `DfBuilder::output`: attaches the three attributes to `output_` and returns it.
The negation is exact for every row count `info` can have been given that is not negative. -/
def DfBuilder.output (b : DfBuilder) : DfBuilder × RList :=
  let output : RList :=
    { b.output_ with
      names := some b.names_
      class_ := some ["tbl_df", "tbl", "data.frame"]
      row_names := some [NA_INTEGER, -b.nrows_] }
  ({ b with output_ := output }, output)

/-! ## The event stream -/

/-- The decoder events of the four callbacks registered by `df_parse`. -/
inductive Event
  | info (obs_count var_count : Int)
  | variable (index : Int) (var_name : String) (var_format var_label val_labels : Option String)
      (type : readstat_types_t)
  | value (obs_index var_index : Int) (value : readstat_value) (type : readstat_types_t)
  | value_label (val_labels : String) (value : readstat_value) (type : readstat_types_t)
      (label : String)
  deriving DecidableEq, Repr

/-- The trampolines `dfbuilder_info`, `dfbuilder_variable`, `dfbuilder_value` and
`dfbuilder_value_label`: each forwards to the method of the builder behind `ctx`. -/
def dfbuilder_handle (b : DfBuilder) (interrupt_pending : Bool) :
    Event → Except Fault (DfBuilder × Int)
  | .info obs_count var_count => b.info obs_count var_count
  | .variable index var_name var_format var_label val_labels type =>
      b.variable index var_name var_format var_label val_labels type
  | .value obs_index var_index value type =>
      b.value interrupt_pending obs_index var_index value type
  | .value_label val_labels value type label => .ok (b.value_label val_labels value type label)

/-- Modelled from the spec: the decoder's event loop, which is library code outside the
sources.  Events are delivered in order, each handler runs to completion, and a nonzero
status ends the run.  No interrupt is raised while this run lasts. -/
def feed (b : DfBuilder) : List Event → Except Fault (DfBuilder × Int)
  | [] => .ok (b, 0)
  | e :: es =>
      match dfbuilder_handle b false e with
      | .error f => .error f
      | .ok (b, status) => if status ≠ 0 then .ok (b, status) else feed b es

/-! ## Reading cells -/

/-- A cell of a column, tagged with the kind of the column it sits in. -/
inductive Cell
  | text (s : String)
  | integer (n : Int)
  | real (d : double)
  deriving DecidableEq, Repr

/-- The cells of a column, in row order. -/
def SEXP.cells : SEXP → List Cell
  | .NilValue => []
  | .STRSXP cells _ => cells.map .text
  | .INTSXP cells _ => cells.map .integer
  | .REALSXP cells _ => cells.map .real

/-- Cell `obs` of column `var` of the builder's `output_`. -/
def DfBuilder.cell (b : DfBuilder) (obs var : Nat) : Option Cell :=
  match b.output_.elts[var]? with
  | some col => col.cells[obs]?
  | none => none

/-- Cell `obs` of column `var` of a frame. -/
def RList.cell (f : RList) (obs var : Nat) : Option Cell :=
  match f.elts[var]? with
  | some col => col.cells[obs]?
  | none => none

/-- The column kind `DfBuilder::variable` allocates for a type. -/
def kind_of : readstat_types_t → Kind
  | .READSTAT_TYPE_LONG_STRING => .text
  | .READSTAT_TYPE_STRING => .text
  | .READSTAT_TYPE_CHAR => .text
  | .READSTAT_TYPE_INT16 => .integer
  | .READSTAT_TYPE_INT32 => .integer
  | .READSTAT_TYPE_FLOAT => .real
  | .READSTAT_TYPE_DOUBLE => .real

/-- The content of a fresh cell of each kind: what the sized vector constructors fill in. -/
def initial_cell : Kind → Cell
  | .text => .text ""
  | .integer => .integer 0
  | .real => .real double.zero

/-- The missing sentinel of each kind. -/
def missing_cell : Kind → Cell
  | .text => .text ""
  | .integer => .integer NA_INTEGER
  | .real => .real NA_REAL

/-- What a branch of `DfBuilder::value` writes, as a cell. -/
def written_cell (value : readstat_value) : readstat_types_t → Cell
  | .READSTAT_TYPE_LONG_STRING => .text (readstat_string_value value)
  | .READSTAT_TYPE_STRING => .text (readstat_string_value value)
  | .READSTAT_TYPE_CHAR => .text (char_to_text (readstat_char_value value))
  | .READSTAT_TYPE_INT16 =>
      .integer (if readstat_value_is_missing value then NA_INTEGER else readstat_int16_value value)
  | .READSTAT_TYPE_INT32 =>
      .integer (if readstat_value_is_missing value then NA_INTEGER else readstat_int32_value value)
  | .READSTAT_TYPE_FLOAT =>
      .real (if readstat_value_is_missing value then NA_REAL else readstat_float_value value)
  | .READSTAT_TYPE_DOUBLE =>
      .real (if readstat_value_is_missing value then NA_REAL else readstat_double_value value)

/-- In-place write of a cell into a column of the same kind. -/
def SEXP.put : SEXP → Nat → Cell → SEXP
  | .STRSXP cells l, i, .text s => .STRSXP (cells.set i s) l
  | .INTSXP cells l, i, .integer n => .INTSXP (cells.set i n) l
  | .REALSXP cells l, i, .real d => .REALSXP (cells.set i d) l
  | x, _, _ => x

/-- The builder with column `var` replaced. -/
def DfBuilder.with_column (b : DfBuilder) (var : Nat) (col : SEXP) : DfBuilder :=
  { b with output_ := { b.output_ with elts := b.output_.elts.set var col } }

/-- Kind, length and label of a column: what no `value` event changes. -/
def SEXP.shape (x : SEXP) : Option Kind × Nat × Option String :=
  (x.kind, x.length, x.label)

/-- The column `DfBuilder::variable` leaves in its slot: fresh cells of the type's kind and
the display label when one was supplied. -/
def fresh_column (nrows : Nat) (type : readstat_types_t) (var_label : Option String) : SEXP :=
  match kind_of type with
  | .text => .STRSXP (List.replicate nrows "") var_label
  | .integer => .INTSXP (List.replicate nrows 0) var_label
  | .real => .REALSXP (List.replicate nrows double.zero) var_label

/-- The part of `DfBuilder::value` after the interrupt check: the typed assignment into
`output_[var_index]` and `return 0`. -/
def DfBuilder.store (b : DfBuilder) (obs_index var_index : Int) (value : readstat_value)
    (type : readstat_types_t) : Except Fault (DfBuilder × Int) := do
  let col ← get_elt b.output_.elts var_index
  let col ← assign_cell col obs_index value type
  let elts ← set_elt b.output_.elts var_index col
  pure ({ b with output_ := { b.output_ with elts := elts } }, 0)

/-- A builder sized for `nrows` rows and `ncols` columns: the row count is set and each of
the four per-column arrays has `ncols` slots.  `info` establishes this and `variable` and
`value` keep it. -/
def DfBuilder.Sized (b : DfBuilder) (nrows ncols : Nat) : Prop :=
  b.nrows_ = nrows ∧ b.output_.elts.length = ncols ∧ b.names_.length = ncols ∧
    b.labels_.length = ncols ∧ b.val_labels_.length = ncols

/-- Payload of a `VARIABLE` event. -/
structure VariableDecl where
  index : Int
  var_name : String
  var_format : Option String
  var_label : Option String
  val_labels : Option String
  type : readstat_types_t
  deriving DecidableEq, Repr

/-- Payload of a `VALUE` event. -/
structure ValueDatum where
  obs_index : Int
  var_index : Int
  value : readstat_value
  type : readstat_types_t
  deriving DecidableEq, Repr

/-- The event carrying a declaration. -/
def VariableDecl.event (d : VariableDecl) : Event :=
  .variable d.index d.var_name d.var_format d.var_label d.val_labels d.type

/-- The event carrying a datum. -/
def ValueDatum.event (e : ValueDatum) : Event :=
  .value e.obs_index e.var_index e.value e.type

/-- The stream in protocol order: one `INFO`, the declarations, the values. -/
def stream (N M : Int) (vars : List VariableDecl) (vals : List ValueDatum) : List Event :=
  .info N M :: (vars.map VariableDecl.event ++ vals.map ValueDatum.event)

/-- A well-formed stream: counts are not negative, the declared indices are exactly
`0 .. M-1`, each once, and every value is in range and of a type whose kind is the kind its
column was declared with. -/
def WellFormed (N M : Int) (vars : List VariableDecl) (vals : List ValueDatum) : Prop :=
  0 ≤ N ∧ 0 ≤ M ∧
    List.Perm (vars.map VariableDecl.index) ((List.range M.toNat).map Int.ofNat) ∧
    ∀ e ∈ vals, 0 ≤ e.obs_index ∧ e.obs_index < N ∧
      ∃ d ∈ vars, d.index = e.var_index ∧ kind_of d.type = kind_of e.type

/-- A value whose accessors all return the given integer, not missing. -/
def int_value (n : Int) : readstat_value :=
  { missing := false, str := "", chr := 'a', i16 := n, i32 := n, flt := double.zero,
    dbl := double.zero }

/-- A value reported missing, with given accessor results. -/
def missing_value (s : String) (n : Int) (d : double) : readstat_value :=
  { missing := true, str := s, chr := 'a', i16 := n, i32 := n, flt := d, dbl := d }

/-- A present real value, by bit pattern. -/
def real_value (d : double) : readstat_value :=
  { missing := false, str := "", chr := 'a', i16 := 0, i32 := 0, flt := d, dbl := d }

/-- The real number `3.5`. -/
def double.three_and_a_half : double := ⟨0x400C000000000000⟩

/-- The state `DfBuilder::variable` leaves a sized builder in. -/
def DfBuilder.declare (b : DfBuilder) (nrows i : Nat) (name : String)
    (lbl vl : Option String) (ty : readstat_types_t) : DfBuilder :=
  { b with
    names_ := b.names_.set i name
    output_ := { b.output_ with elts := b.output_.elts.set i (fresh_column nrows ty lbl) }
    labels_ := match lbl with
      | some l => b.labels_.set i l
      | none => b.labels_
    val_labels_ := match vl with
      | some r => b.val_labels_.set i r
      | none => b.val_labels_ }

/-- A datum fits a list of column shapes when its indices are not negative, the shape at
its column is of the kind of its type, and its row is below that column's length. -/
def ValueDatum.Fits (shapes : List (Option Kind × Nat × Option String)) (e : ValueDatum) :
    Prop :=
  0 ≤ e.obs_index ∧ 0 ≤ e.var_index ∧
    ∃ len lbl, shapes[e.var_index.toNat]? = some (some (kind_of e.type), len, lbl) ∧
      e.obs_index.toNat < len

/-- The cell address of a datum. -/
def ValueDatum.address (e : ValueDatum) : Nat × Nat :=
  (e.obs_index.toNat, e.var_index.toNat)

/-- The first scenario of the spec up to its declarations: `INFO(2,2)`, an `INT32` variable
`a` and a `DOUBLE` variable `b` labelled "B label". -/
def scenario_declarations : List VariableDecl :=
  [ { index := 0, var_name := "a", var_format := none, var_label := none, val_labels := none,
      type := .READSTAT_TYPE_INT32 },
    { index := 1, var_name := "b", var_format := none, var_label := some "B label",
      val_labels := none, type := .READSTAT_TYPE_DOUBLE } ]

/-- The values of the first scenario; the two missing values carry accessor results that
must not show up in the frame. -/
def scenario_values : List ValueDatum :=
  [ { obs_index := 0, var_index := 0, value := int_value 1, type := .READSTAT_TYPE_INT32 },
    { obs_index := 1, var_index := 0, value := missing_value "junk" 7 ⟨123⟩,
      type := .READSTAT_TYPE_INT32 },
    { obs_index := 0, var_index := 1, value := real_value double.three_and_a_half,
      type := .READSTAT_TYPE_DOUBLE },
    { obs_index := 1, var_index := 1, value := missing_value "junk" 7 ⟨123⟩,
      type := .READSTAT_TYPE_DOUBLE } ]

/-- The frame the first scenario is expected to produce. -/
def scenario_frame : RList :=
  { elts := [.INTSXP [1, NA_INTEGER] none,
             .REALSXP [double.three_and_a_half, NA_REAL] (some "B label")],
    names := some ["a", "b"],
    class_ := some ["tbl_df", "tbl", "data.frame"],
    row_names := some [NA_INTEGER, -2] }

/-- The single integer column of the cancellation scenario. -/
def cancellation_declarations : List VariableDecl :=
  [ { index := 0, var_name := "x", var_format := none, var_label := none, val_labels := none,
      type := .READSTAT_TYPE_INT32 } ]

/-- The first `k` value events of the cancellation scenario: rows `0 .. k-1` of column 0. -/
def cancellation_values (k : Nat) : List ValueDatum :=
  (List.range k).map fun (i : Nat) =>
    { obs_index := Int.ofNat i, var_index := 0, value := int_value (Int.ofNat i),
      type := .READSTAT_TYPE_INT32 }

/-- The two `VALUE_LABEL` events of the value-label scenario. -/
def label_events : List Event :=
  [ .value_label "L" (int_value 1) .READSTAT_TYPE_INT32 "one",
    .value_label "L" (int_value 2) .READSTAT_TYPE_INT32 "two" ]

/-- One integer column on one row, never written. -/
def unwritten_declarations : List VariableDecl :=
  [ { index := 0, var_name := "a", var_format := none, var_label := none, val_labels := none,
      type := .READSTAT_TYPE_INT32 } ]

/-- The text column of the text scenario. -/
def text_declarations : List VariableDecl :=
  [ { index := 0, var_name := "s", var_format := none, var_label := none, val_labels := none,
      type := .READSTAT_TYPE_STRING } ]

/-- The builder state after `INFO(2,2)`, before any declaration. -/
def scenario_sized : DfBuilder :=
  { nrows_ := 2, ncols_ := 2,
    output_ := { elts := [.NilValue, .NilValue], names := none, class_ := none,
                 row_names := none },
    names_ := ["", ""], labels_ := ["", ""], val_labels_ := ["", ""], label_sets_ := [] }

/-- The builder state the declarations of the first scenario lead to. -/
def scenario_builder : DfBuilder :=
  { nrows_ := 2, ncols_ := 2,
    output_ :=
      { elts := [.INTSXP [0, 0] none, .REALSXP [double.zero, double.zero] (some "B label")],
        names := none, class_ := none, row_names := none },
    names_ := ["a", "b"], labels_ := ["", "B label"], val_labels_ := ["", ""],
    label_sets_ := [] }

/-! ## `df_parse` -/

/-- How `df_parse` can end without a frame: by `stop(...)` with its message, or by whatever
left a callback while the decoder ran. -/
inductive ParseFailure
  | stop (message : String)
  | fault (f : Fault)
  deriving DecidableEq, Repr

/-- Function template `df_parse`.  `parse_f` is the format's decoder: from the file name and
the fresh builder behind `ctx` it yields the builder its callbacks leave and its status,
unless a callback is left by an exception.  `readstat_error_message` is the decoder
library's message for a status.  The parser handle carries no state the result depends on. -/
def df_parse (filename : String)
    (parse_f : String → DfBuilder → Except Fault (DfBuilder × Int))
    (readstat_error_message : Int → String) : Except ParseFailure RList :=
  match parse_f filename DfBuilder.new with
  | .error f => .error (.fault f)
  | .ok (builder, result) =>
      if result ≠ 0 then
        .error (.stop ("Failed to parse " ++ filename ++ ": " ++ readstat_error_message result
          ++ "."))
      else .ok (builder.output).2

/-- A decoder that delivers a fixed list of events, whatever the file, and then reports a
fixed status. -/
def scripted_decoder (events : List Event) (status : Int) :
    String → DfBuilder → Except Fault (DfBuilder × Int) :=
  fun _ b =>
    match feed b events with
    | .error f => .error f
    | .ok (b', _) => .ok (b', status)

/-- A message table that knows one status. -/
def scripted_message (status : Int) (message : String) : Int → String :=
  fun r => if r = status then message else "Unknown error"

/-! ## Sequences of `add` -/

/-- The label set a sequence of `add` calls builds from the empty one. -/
def LabelSet.build (pairs : List (String × String)) : LabelSet :=
  pairs.foldl (fun s p => s.add p.1 p.2) LabelSet.new

/-- The pairs of a label set, in insertion order. -/
def LabelSet.pairs (s : LabelSet) : List (String × String) :=
  s.labels.zip s.values

/-- The `TEXT_CHAR` scenario of the spec: one row, one column `c`, the character `X`. -/
def char_declarations : List VariableDecl :=
  [ { index := 0, var_name := "c", var_format := none, var_label := none, val_labels := none,
      type := .READSTAT_TYPE_CHAR } ]

/-- A present character value. -/
def char_value (c : Char) : readstat_value :=
  { missing := false, str := "", chr := c, i16 := 0, i32 := 0, flt := double.zero,
    dbl := double.zero }

/-- The value events of the `TEXT_CHAR` scenario. -/
def char_values : List ValueDatum :=
  [ { obs_index := 0, var_index := 0, value := char_value 'X', type := .READSTAT_TYPE_CHAR } ]

/-- The builder state the declaration of the text scenario leads to. -/
def text_builder : DfBuilder :=
  { nrows_ := 1, ncols_ := 1,
    output_ := { elts := [.STRSXP [""] none], names := none, class_ := none,
                 row_names := none },
    names_ := ["s"], labels_ := [""], val_labels_ := [""], label_sets_ := [] }

/-! ## Basic facts -/

theorem get_elt_natCast {α : Type} (xs : List α) (i : Nat) :
    get_elt xs (i : Int) =
      match xs[i]? with
      | some a => .ok a
      | none => .error .out_of_bounds := by
  simp [get_elt]

theorem set_elt_natCast {α : Type} (xs : List α) (i : Nat) (a : α) :
    set_elt xs (i : Int) a =
      if i < xs.length then .ok (xs.set i a) else .error .out_of_bounds := by
  simp [set_elt]

theorem put_kind (x : SEXP) (i : Nat) (c : Cell) : (x.put i c).kind = x.kind := by
  cases x <;> cases c <;> rfl

theorem put_label (x : SEXP) (i : Nat) (c : Cell) : (x.put i c).label = x.label := by
  cases x <;> cases c <;> rfl

theorem put_length (x : SEXP) (i : Nat) (c : Cell) : (x.put i c).length = x.length := by
  cases x <;> cases c <;> simp [SEXP.put, SEXP.length]

theorem cells_length (x : SEXP) : x.cells.length = x.length := by
  cases x <;> simp [SEXP.cells, SEXP.length]

theorem put_cells (x : SEXP) (i : Nat) (v : readstat_value) (ty : readstat_types_t)
    (hk : x.kind = some (kind_of ty)) :
    (x.put i (written_cell v ty)).cells = x.cells.set i (written_cell v ty) := by
  cases x <;> cases ty <;>
    simp_all [SEXP.kind, kind_of, written_cell, SEXP.put, SEXP.cells, List.map_set]

/-- A kind-matching, in-range assignment writes the cell in place. -/
theorem assign_cell_ok (x : SEXP) (o : Nat) (v : readstat_value) (ty : readstat_types_t)
    (hk : x.kind = some (kind_of ty)) (ho : o < x.length) :
    assign_cell x (o : Int) v ty = .ok (x.put o (written_cell v ty)) := by
  cases x <;> cases ty <;>
    simp_all [SEXP.kind, kind_of, assign_cell, assign_string, assign_int, assign_real,
      set_elt_natCast, SEXP.length, written_cell, SEXP.put, bind, Except.bind, pure,
      Except.pure] <;>
    split <;> rfl

theorem set_elt_ok {α : Type} {xs ys : List α} {i : Int} {a : α}
    (h : set_elt xs i a = .ok ys) : 0 ≤ i ∧ i.toNat < xs.length ∧ ys = xs.set i.toNat a := by
  unfold set_elt at h
  split at h
  · rename_i hi
    refine ⟨hi.1, by omega, ?_⟩
    cases h
    rfl
  · cases h

theorem get_elt_ok {α : Type} {xs : List α} {i : Int} {a : α}
    (h : get_elt xs i = .ok a) : 0 ≤ i ∧ xs[i.toNat]? = some a := by
  unfold get_elt at h
  split at h
  · cases h
  · split at h
    · rename_i heq
      cases h
      exact ⟨by omega, heq⟩
    · cases h

/-- Whatever a branch of `value` does to a column, it keeps the column's kind, label and
length, and every cell other than the addressed one. -/
theorem assign_cell_frame {x x' : SEXP} {obs : Int} {v : readstat_value}
    {ty : readstat_types_t} (h : assign_cell x obs v ty = .ok x') :
    x'.kind = x.kind ∧ x'.label = x.label ∧ x'.length = x.length ∧
      ∀ i, i ≠ obs.toNat → x'.cells[i]? = x.cells[i]? := by
  cases x <;> cases ty <;>
    simp only [assign_cell, assign_string, assign_int, assign_real, bind, Except.bind, pure,
      Except.pure] at h <;>
    (try split at h) <;> (try split at h) <;> (try cases h) <;>
    first
      | exact ⟨rfl, rfl, rfl, fun _ _ => rfl⟩
      | (rename_i hs
         obtain ⟨_, _, rfl⟩ := set_elt_ok hs
         exact ⟨rfl, rfl, by simp [SEXP.length], fun i hi => by
           simp [SEXP.cells, List.getElem?_set, Ne.symm hi]⟩)

theorem getElem?_lt_length {α : Type} {xs : List α} {i : Nat} {a : α}
    (h : xs[i]? = some a) : i < xs.length := by
  by_contra hlt
  rw [List.getElem?_eq_none (by omega)] at h
  cases h

/-- `value` is the interrupt check followed by the store. -/
theorem value_eq (b : DfBuilder) (p : Bool) (obs var : Int) (v : readstat_value)
    (ty : readstat_types_t) :
    b.value p obs var v ty =
      if stride_boundary obs var = true ∧ p = true then .error .interrupted
      else b.store obs var v ty := by
  unfold DfBuilder.value DfBuilder.store checkUserInterrupt
  cases stride_boundary obs var <;> cases p <;> rfl

/-- A kind-matching, in-range value event with no interrupt pending returns `0` and writes
exactly the addressed cell. -/
theorem value_ok (b : DfBuilder) (o j : Nat) (v : readstat_value) (ty : readstat_types_t)
    (col : SEXP) (hc : b.output_.elts[j]? = some col) (hk : col.kind = some (kind_of ty))
    (ho : o < col.length) :
    b.value false o j v ty = .ok (b.with_column j (col.put o (written_cell v ty)), 0) := by
  have hj := getElem?_lt_length hc
  simp [value_eq, DfBuilder.store, get_elt_natCast, hc, assign_cell_ok _ _ _ _ hk ho,
    set_elt_natCast, hj, DfBuilder.with_column, bind, Except.bind, pure, Except.pure]

/-- Every normal return of `value` has status `0` and replaces one column by what
`assign_cell` made of it. -/
theorem value_returns {b b' : DfBuilder} {p : Bool} {obs var : Int} {v : readstat_value}
    {ty : readstat_types_t} {st : Int} (h : b.value p obs var v ty = .ok (b', st)) :
    st = 0 ∧ 0 ≤ var ∧ ∃ col col', b.output_.elts[var.toNat]? = some col ∧
      assign_cell col obs v ty = .ok col' ∧ b' = b.with_column var.toNat col' := by
  rw [value_eq] at h
  split at h
  · cases h
  · unfold DfBuilder.store at h
    simp only [bind, Except.bind, pure, Except.pure] at h
    split at h
    · cases h
    · rename_i col hcol
      obtain ⟨hv, hcol⟩ := get_elt_ok hcol
      split at h
      · cases h
      · rename_i col' hcol'
        split at h
        · cases h
        · rename_i elts hs
          obtain ⟨_, _, rfl⟩ := set_elt_ok hs
          cases h
          exact ⟨rfl, hv, col, col', hcol, hcol', rfl⟩

theorem with_column_cell_same (b : DfBuilder) (o j : Nat) (col : SEXP)
    (hj : j < b.output_.elts.length) : (b.with_column j col).cell o j = col.cells[o]? := by
  simp [DfBuilder.with_column, DfBuilder.cell, List.getElem?_set, hj]

theorem with_column_cell_other (b : DfBuilder) (o j j' : Nat) (col : SEXP) (h : j ≠ j') :
    (b.with_column j col).cell o j' = b.cell o j' := by
  simp [DfBuilder.with_column, DfBuilder.cell, List.getElem?_set, h]

/-- The cell a kind-matching, in-range value event leaves at its address. -/
theorem value_ok_cell (b : DfBuilder) (o j : Nat) (v : readstat_value)
    (ty : readstat_types_t) (col : SEXP) (hc : b.output_.elts[j]? = some col)
    (hk : col.kind = some (kind_of ty)) (ho : o < col.length) :
    (b.with_column j (col.put o (written_cell v ty))).cell o j = some (written_cell v ty) := by
  rw [with_column_cell_same _ _ _ _ (getElem?_lt_length hc), put_cells _ _ _ _ hk]
  simp [List.getElem?_set, cells_length, ho]

theorem scenario_builder_reached :
    feed DfBuilder.new (stream 2 2 scenario_declarations []) = .ok (scenario_builder, 0) := by
  rfl

/-! ## Facts about `info` and `variable` -/

/-- The state a sized builder is in after `variable`. -/
theorem variable_ok (b : DfBuilder) (n m i : Nat) (name : String) (fmt lbl vl : Option String)
    (ty : readstat_types_t) (hs : b.Sized n m) (hi : i < m) :
    b.variable i name fmt lbl vl ty = .ok (b.declare n i name lbl vl ty, 0) := by
  obtain ⟨h1, h2, h3, h4, h5⟩ := hs
  have hn : ¬ ((n : Int) < 0) := by omega
  cases ty <;> cases lbl <;> cases vl <;>
    simp [DfBuilder.variable, new_column, CharacterVector, IntegerVector, NumericVector,
      set_elt_natCast, get_elt_natCast, SEXP.attr_label, fresh_column, kind_of, bind,
      Except.bind, pure, Except.pure, h1, h2, h3, h4, h5, hi, hn, DfBuilder.declare]

/-- `info` on any builder with counts that are not negative. -/
theorem info_ok (b : DfBuilder) (n m : Nat) :
    b.info n m =
      .ok ({ b with
              nrows_ := n
              ncols_ := m
              output_ := { elts := List.replicate m .NilValue, names := none, class_ := none,
                           row_names := none }
              names_ := List.replicate m ""
              labels_ := List.replicate m ""
              val_labels_ := List.replicate m "" }, 0) := by
  have hm : ¬ ((m : Int) < 0) := by omega
  simp [DfBuilder.info, RList.new, CharacterVector, bind, Except.bind, pure, Except.pure, hm]

/-! ## Facts about runs -/

theorem feed_cons_ok {b b' : DfBuilder} {e : Event} (es : List Event)
    (h : dfbuilder_handle b false e = .ok (b', 0)) : feed b (e :: es) = feed b' es := by
  simp [feed, h]

theorem put_shape (x : SEXP) (i : Nat) (c : Cell) : (x.put i c).shape = x.shape := by
  simp [SEXP.shape, put_kind, put_label, put_length]

theorem with_column_shape (b : DfBuilder) (j : Nat) (col col' : SEXP)
    (hc : b.output_.elts[j]? = some col) (hs : col'.shape = col.shape) :
    (b.with_column j col').output_.elts.map SEXP.shape = b.output_.elts.map SEXP.shape := by
  apply List.ext_getElem?
  intro i
  simp only [DfBuilder.with_column, List.getElem?_map, List.getElem?_set]
  by_cases hij : j = i
  · subst hij
    simp [getElem?_lt_length hc, hc, hs]
  · simp [hij]

/-- One fitting value event: the handler returns 0 and writes the addressed cell in place. -/
theorem value_fits_step (b : DfBuilder) (e : ValueDatum)
    (h : e.Fits (b.output_.elts.map SEXP.shape)) :
    ∃ col, b.output_.elts[e.var_index.toNat]? = some col ∧
      col.kind = some (kind_of e.type) ∧ e.obs_index.toNat < col.length ∧
      dfbuilder_handle b false e.event =
        .ok (b.with_column e.var_index.toNat
              (col.put e.obs_index.toNat (written_cell e.value e.type)), 0) := by
  obtain ⟨hobs, hvar, len, lbl, hsh, hlen⟩ := h
  rw [List.getElem?_map] at hsh
  cases hcol : b.output_.elts[e.var_index.toNat]? with
  | none => simp [hcol] at hsh
  | some col =>
    simp only [hcol, Option.map_some', Option.some.injEq, SEXP.shape, Prod.mk.injEq] at hsh
    obtain ⟨hk, hl, _⟩ := hsh
    refine ⟨col, rfl, hk, by omega, ?_⟩
    have := value_ok b e.obs_index.toNat e.var_index.toNat e.value e.type col hcol hk (by omega)
    rw [Int.toNat_of_nonneg hobs, Int.toNat_of_nonneg hvar] at this
    simpa [dfbuilder_handle, ValueDatum.event] using this

theorem with_column_put_cell_other (b : DfBuilder) (o j o' j' : Nat) (v : readstat_value)
    (ty : readstat_types_t) (col : SEXP) (hc : b.output_.elts[j]? = some col)
    (hk : col.kind = some (kind_of ty)) (hne : ¬ (o = o' ∧ j = j')) :
    (b.with_column j (col.put o (written_cell v ty))).cell o' j' = b.cell o' j' := by
  by_cases hj : j = j'
  · subst hj
    have ho : o ≠ o' := fun h => hne ⟨h, rfl⟩
    rw [with_column_cell_same _ _ _ _ (getElem?_lt_length hc), put_cells _ _ _ _ hk]
    simp [DfBuilder.cell, hc, List.getElem?_set, ho]
  · exact with_column_cell_other _ _ _ _ _ hj

/-- A run of fitting value events succeeds, touches nothing but cells, keeps every column's
kind, length and label, leaves unaddressed cells alone and, when no cell is addressed twice,
leaves at each address what its event wrote. -/
theorem feed_values (vals : List ValueDatum) :
    ∀ (b : DfBuilder) (rest : List Event),
      (∀ e ∈ vals, e.Fits (b.output_.elts.map SEXP.shape)) →
      ∃ elts, feed b (vals.map ValueDatum.event ++ rest) =
          feed { b with output_ := { b.output_ with elts := elts } } rest ∧
        elts.map SEXP.shape = b.output_.elts.map SEXP.shape ∧
        (∀ o j, (o, j) ∉ vals.map ValueDatum.address →
          DfBuilder.cell { b with output_ := { b.output_ with elts := elts } } o j = b.cell o j) ∧
        ((vals.map ValueDatum.address).Nodup → ∀ e ∈ vals,
          DfBuilder.cell { b with output_ := { b.output_ with elts := elts } }
            e.obs_index.toNat e.var_index.toNat = some (written_cell e.value e.type)) := by
  induction vals with
  | nil =>
    intro b rest _
    exact ⟨b.output_.elts, rfl, rfl, fun _ _ _ => rfl, fun _ e he => by cases he⟩
  | cons e es ih =>
    intro b rest hfit
    obtain ⟨col, hcol, hk, ho, hstep⟩ := value_fits_step b e (hfit e (List.mem_cons_self _ _))
    have hshape := with_column_shape b e.var_index.toNat col
      (col.put e.obs_index.toNat (written_cell e.value e.type)) hcol (put_shape _ _ _)
    obtain ⟨elts, hrun, hsh, hkeep, hlast⟩ :=
      ih (b.with_column e.var_index.toNat
            (col.put e.obs_index.toNat (written_cell e.value e.type))) rest
        (fun e' he' => by rw [hshape]; exact hfit e' (List.mem_cons_of_mem _ he'))
    refine ⟨elts, ?_, hsh.trans hshape, ?_, ?_⟩
    · rw [List.map_cons, List.cons_append, feed_cons_ok _ hstep, hrun]
      rfl
    · intro o j hnot
      simp only [List.map_cons, List.mem_cons, not_or] at hnot
      have h1 := hkeep o j hnot.2
      have h2 := with_column_put_cell_other b e.obs_index.toNat e.var_index.toNat o j
        e.value e.type col hcol hk (fun h => hnot.1 (by simp [ValueDatum.address, h.1, h.2]))
      exact h1.trans h2
    · intro hnd e' he'
      simp only [List.map_cons, List.nodup_cons] at hnd
      rcases List.mem_cons.mp he' with rfl | hmem
      · have h1 := hkeep e'.obs_index.toNat e'.var_index.toNat hnd.1
        exact h1.trans (value_ok_cell b _ _ _ _ col hcol hk ho)
      · exact hlast hnd.2 e' hmem

theorem fresh_column_shape (n : Nat) (ty : readstat_types_t) (lbl : Option String) :
    (fresh_column n ty lbl).shape = (some (kind_of ty), n, lbl) := by
  cases ty <;> simp [fresh_column, kind_of, SEXP.shape, SEXP.kind, SEXP.length, SEXP.label]

theorem fresh_column_cells (n : Nat) (ty : readstat_types_t) (lbl : Option String) :
    (fresh_column n ty lbl).cells = List.replicate n (initial_cell (kind_of ty)) := by
  cases ty <;> simp [fresh_column, kind_of, SEXP.cells, initial_cell]

/-- One declaration on a sized builder: the handler returns 0, fills the slot and the name. -/
theorem variable_step (b : DfBuilder) (n m : Nat) (d : VariableDecl) (hs : b.Sized n m)
    (h0 : 0 ≤ d.index) (hm : d.index < m) :
    ∃ b', dfbuilder_handle b false d.event = .ok (b', 0) ∧ b'.Sized n m ∧
      b'.output_.elts = b.output_.elts.set d.index.toNat (fresh_column n d.type d.var_label) ∧
      b'.names_ = b.names_.set d.index.toNat d.var_name ∧
      b'.label_sets_ = b.label_sets_ := by
  obtain ⟨i, hi⟩ := Int.eq_ofNat_of_zero_le h0
  have him : i < m := by omega
  have := variable_ok b n m i d.var_name d.var_format d.var_label d.val_labels d.type hs him
  refine ⟨b.declare n i d.var_name d.var_label d.val_labels d.type, ?_, ?_, ?_, ?_, ?_⟩
  · simp only [dfbuilder_handle, VariableDecl.event, hi]
    exact this
  · obtain ⟨h1, h2, h3, h4, h5⟩ := hs
    refine ⟨h1, by simp [DfBuilder.declare, h2], by simp [DfBuilder.declare, h3], ?_, ?_⟩
    · cases hl : d.var_label <;> simp [DfBuilder.declare, h4]
    · cases hv : d.val_labels <;> simp [DfBuilder.declare, h5]
  · simp [DfBuilder.declare, hi]
  · simp [DfBuilder.declare, hi]
  · rfl

/-- A run of in-range declarations on a sized builder succeeds and keeps it sized; slots no
declaration names are untouched, and when no index is declared twice each declared slot
holds its fresh column and its name. -/
theorem feed_variables (n m : Nat) (vars : List VariableDecl) :
    ∀ (b : DfBuilder) (rest : List Event), b.Sized n m →
      (∀ d ∈ vars, 0 ≤ d.index ∧ d.index < m) →
      ∃ b', feed b (vars.map VariableDecl.event ++ rest) = feed b' rest ∧ b'.Sized n m ∧
        b'.label_sets_ = b.label_sets_ ∧
        (∀ i : Nat, (i : Int) ∉ vars.map VariableDecl.index →
          b'.output_.elts[i]? = b.output_.elts[i]? ∧ b'.names_[i]? = b.names_[i]?) ∧
        ((vars.map VariableDecl.index).Nodup → ∀ d ∈ vars,
          b'.output_.elts[d.index.toNat]? = some (fresh_column n d.type d.var_label) ∧
            b'.names_[d.index.toNat]? = some d.var_name) := by
  induction vars with
  | nil =>
    intro b rest hs _
    exact ⟨b, rfl, hs, rfl, fun _ _ => ⟨rfl, rfl⟩, fun _ d hd => by cases hd⟩
  | cons d ds ih =>
    intro b rest hs hr
    obtain ⟨h0, hm⟩ := hr d (List.mem_cons_self _ _)
    obtain ⟨b1, hstep, hs1, helts, hnames, hls⟩ := variable_step b n m d hs h0 hm
    obtain ⟨b', hrun, hs', hls', hkeep, hdecl⟩ :=
      ih b1 rest hs1 (fun d' hd' => hr d' (List.mem_cons_of_mem _ hd'))
    refine ⟨b', ?_, hs', hls'.trans hls, ?_, ?_⟩
    · rw [List.map_cons, List.cons_append, feed_cons_ok _ hstep, hrun]
    · intro i hi
      simp only [List.map_cons, List.mem_cons, not_or] at hi
      obtain ⟨k1, k2⟩ := hkeep i hi.2
      have hne : d.index.toNat ≠ i := by
        intro h
        apply hi.1
        omega
      rw [k1, k2, helts, hnames]
      simp [List.getElem?_set, hne]
    · intro hnd d' hd'
      simp only [List.map_cons, List.nodup_cons] at hnd
      rcases List.mem_cons.mp hd' with rfl | hmem
      · have hcast : ((d'.index.toNat : Nat) : Int) = d'.index := Int.toNat_of_nonneg h0
        obtain ⟨k1, k2⟩ := hkeep d'.index.toNat (by rw [hcast]; exact hnd.1)
        obtain ⟨_, h2, h3, _, _⟩ := hs
        have hlt : d'.index.toNat < m := by omega
        rw [k1, k2, helts, hnames]
        simp [List.getElem?_set, h2, h3, hlt]
      · exact hdecl hnd.2 d' hmem

theorem wellFormed_index_range {N M : Int} {vars : List VariableDecl} {vals : List ValueDatum}
    (h : WellFormed N M vars vals) :
    (∀ d ∈ vars, 0 ≤ d.index ∧ d.index < M) ∧ (vars.map VariableDecl.index).Nodup ∧
      ∀ i : Nat, i < M.toNat → ∃ d ∈ vars, d.index = i := by
  obtain ⟨_, hM, hperm, _⟩ := h
  refine ⟨?_, ?_, ?_⟩
  · intro d hd
    have : d.index ∈ (List.range M.toNat).map Int.ofNat :=
      hperm.mem_iff.mp (List.mem_map_of_mem _ hd)
    obtain ⟨i, hi, hid⟩ := List.mem_map.mp this
    have := List.mem_range.mp hi
    have hid' : (i : Int) = d.index := hid
    omega
  · refine hperm.nodup_iff.mpr ?_
    exact (List.nodup_range _).map (fun a b hab => by simpa using hab)
  · intro i hi
    have : (i : Int) ∈ vars.map VariableDecl.index :=
      hperm.mem_iff.mpr (List.mem_map.mpr ⟨i, List.mem_range.mpr hi, rfl⟩)
    obtain ⟨d, hd, hdi⟩ := List.mem_map.mp this
    exact ⟨d, hd, hdi⟩

/-- The run of a well-formed stream from a fresh builder: it ends normally with status 0 in
a sized builder with an empty registry; every declared slot holds a column of the declared
kind, length and label and its name; a cell no value addresses holds the fresh content of
its kind; and when no cell is addressed twice each addressed cell holds what its event
wrote. -/
theorem run_wellformed (N M : Int) (vars : List VariableDecl) (vals : List ValueDatum)
    (h : WellFormed N M vars vals) :
    ∃ b, feed DfBuilder.new (stream N M vars vals) = .ok (b, 0) ∧
      b.Sized N.toNat M.toNat ∧ b.label_sets_ = [] ∧
      (∀ d ∈ vars, ∃ col, b.output_.elts[d.index.toNat]? = some col ∧
        col.shape = (some (kind_of d.type), N.toNat, d.var_label) ∧
        b.names_[d.index.toNat]? = some d.var_name) ∧
      (∀ d ∈ vars, ∀ o, o < N.toNat → (o, d.index.toNat) ∉ vals.map ValueDatum.address →
        b.cell o d.index.toNat = some (initial_cell (kind_of d.type))) ∧
      ((vals.map ValueDatum.address).Nodup → ∀ e ∈ vals,
        b.cell e.obs_index.toNat e.var_index.toNat = some (written_cell e.value e.type)) := by
  obtain ⟨hrange, hnd, _⟩ := wellFormed_index_range h
  obtain ⟨hN, hM, _, hvals⟩ := h
  obtain ⟨n, rfl⟩ := Int.eq_ofNat_of_zero_le hN
  obtain ⟨m, rfl⟩ := Int.eq_ofNat_of_zero_le hM
  simp only [Int.toNat_ofNat] at *
  have hinfo := info_ok DfBuilder.new n m
  have hsized : DfBuilder.Sized
      { DfBuilder.new with
        nrows_ := n
        ncols_ := m
        output_ := { elts := List.replicate m .NilValue, names := none, class_ := none,
                     row_names := none }
        names_ := List.replicate m ""
        labels_ := List.replicate m ""
        val_labels_ := List.replicate m "" } n m := by
    simp [DfBuilder.Sized]
  obtain ⟨b1, hrun1, hs1, hls1, _, hdecl⟩ :=
    feed_variables n m vars _ (vals.map ValueDatum.event) hsized hrange
  have hdecl := hdecl hnd
  have hfit : ∀ e ∈ vals, e.Fits (b1.output_.elts.map SEXP.shape) := by
    intro e he
    obtain ⟨ho0, hoN, d, hd, hidx, hkind⟩ := hvals e he
    obtain ⟨hcol, _⟩ := hdecl d hd
    refine ⟨ho0, hidx ▸ (hrange d hd).1, n, d.var_label, ?_, by omega⟩
    rw [← hidx, List.getElem?_map, hcol, Option.map_some', fresh_column_shape, hkind]
  obtain ⟨elts, hrun2, hsh, hkeep, hlast⟩ := feed_values vals b1 [] hfit
  have hlen : elts.length = b1.output_.elts.length := by
    simpa using congrArg List.length hsh
  refine ⟨{ b1 with output_ := { b1.output_ with elts := elts } }, ?_, ?_, ?_, ?_, ?_, hlast⟩
  · have h0 : dfbuilder_handle DfBuilder.new false (.info n m) = .ok (_, 0) := hinfo
    rw [stream, feed_cons_ok _ h0, hrun1]
    have := hrun2
    rw [List.append_nil] at this
    rw [this]
    rfl
  · obtain ⟨h1, h2, h3, h4, h5⟩ := hs1
    exact ⟨h1, hlen.trans h2, h3, h4, h5⟩
  · rw [hls1]
    rfl
  · intro d hd
    obtain ⟨hcol, hname⟩ := hdecl d hd
    have hsd : (elts.map SEXP.shape)[d.index.toNat]? =
        some (some (kind_of d.type), n, d.var_label) := by
      rw [hsh, List.getElem?_map, hcol, Option.map_some', fresh_column_shape]
    rw [List.getElem?_map] at hsd
    cases hc : elts[d.index.toNat]? with
    | none => simp [hc] at hsd
    | some col =>
      refine ⟨col, rfl, ?_, hname⟩
      simpa [hc] using hsd
  · intro d hd o ho hnot
    rw [hkeep o d.index.toNat hnot]
    obtain ⟨hcol, _⟩ := hdecl d hd
    simp [DfBuilder.cell, hcol, fresh_column_cells, ho]

/-! ## Missing numeric values -/

/-- C3: a value reported missing, delivered in range with type INT16 or INT32 to an integer
column, or with type FLOAT or DOUBLE to a real column, makes `value` return 0 and leaves the
missing sentinel of the column's kind in the addressed cell: `NA_INTEGER` in an integer
column and `NA_REAL` (a NaN) in a real column.  Nothing is assumed about what the typed
accessors return on the value. -/
theorem value_missing_stores_sentinel (b : DfBuilder) (obs_index var_index : Int)
    (value : readstat_value) (type : readstat_types_t) (col : SEXP)
    (hobs : 0 ≤ obs_index) (hvar : 0 ≤ var_index)
    (hcol : b.output_.elts[var_index.toNat]? = some col)
    (hrange : obs_index < col.length)
    (hkind : col.kind = some (kind_of type))
    (hmiss : readstat_value_is_missing value = true) :
    ∃ b', b.value false obs_index var_index value type = .ok (b', 0) ∧
      ((type = .READSTAT_TYPE_INT16 ∨ type = .READSTAT_TYPE_INT32) →
        b'.cell obs_index.toNat var_index.toNat = some (.integer NA_INTEGER)) ∧
      ((type = .READSTAT_TYPE_FLOAT ∨ type = .READSTAT_TYPE_DOUBLE) →
        b'.cell obs_index.toNat var_index.toNat = some (.real NA_REAL)) ∧
      NA_REAL.isNaN = true := by
  obtain ⟨o, rfl⟩ := Int.eq_ofNat_of_zero_le hobs
  obtain ⟨j, rfl⟩ := Int.eq_ofNat_of_zero_le hvar
  simp only [Int.toNat_ofNat] at hcol ⊢
  have ho : o < col.length := by exact_mod_cast hrange
  refine ⟨_, value_ok b o j value type col hcol hkind ho, ?_, ?_, by decide⟩
  · intro ht
    rw [value_ok_cell b o j value type col hcol hkind ho]
    rcases ht with rfl | rfl <;> simp [written_cell, hmiss]
  · intro ht
    rw [value_ok_cell b o j value type col hcol hkind ho]
    rcases ht with rfl | rfl <;> simp [written_cell, hmiss]

/-- C3 at the first scenario: a missing INT32 value whose accessors would return 7 goes to
row 1 of column `a`. -/
theorem value_missing_stores_sentinel_witness :
    ∃ b', scenario_builder.value false 1 0 (missing_value "x" 7 double.three_and_a_half)
        .READSTAT_TYPE_INT32 = .ok (b', 0) ∧
      ((Haven.readstat_types_t.READSTAT_TYPE_INT32 = .READSTAT_TYPE_INT16 ∨
          Haven.readstat_types_t.READSTAT_TYPE_INT32 = .READSTAT_TYPE_INT32) →
        b'.cell 1 0 = some (.integer NA_INTEGER)) ∧
      ((Haven.readstat_types_t.READSTAT_TYPE_INT32 = .READSTAT_TYPE_FLOAT ∨
          Haven.readstat_types_t.READSTAT_TYPE_INT32 = .READSTAT_TYPE_DOUBLE) →
        b'.cell 1 0 = some (.real NA_REAL)) ∧
      NA_REAL.isNaN = true :=
  value_missing_stores_sentinel scenario_builder 1 0
    (missing_value "x" 7 double.three_and_a_half) .READSTAT_TYPE_INT32 (.INTSXP [0, 0] none)
    (by decide) (by decide) (by decide) (by decide) (by decide) (by decide)

/-! ## Shape of the frame -/

theorem scenario_wellformed : WellFormed 2 2 scenario_declarations scenario_values := by
  unfold WellFormed
  decide

/-- C1: the run of a well-formed stream `INFO(N, M)`, declarations, values ends normally,
and `output()` then returns a frame with exactly `M` columns, each a vector of length `N`
of the declared kind, and a `names` attribute of length `M` whose entry at each declared
index is the declared name; for `M = 0` the frame has no columns and `names` is empty. -/
theorem output_shape_of_wellformed_stream (N M : Int) (vars : List VariableDecl)
    (vals : List ValueDatum) (h : WellFormed N M vars vals) :
    ∃ b, feed DfBuilder.new (stream N M vars vals) = .ok (b, 0) ∧
      (b.output).2.elts.length = M.toNat ∧
      (∀ col ∈ (b.output).2.elts, col.length = N.toNat ∧ col.kind ≠ none) ∧
      (∀ d ∈ vars, ∃ col, (b.output).2.elts[d.index.toNat]? = some col ∧
        col.kind = some (kind_of d.type) ∧ col.length = N.toNat) ∧
      (∃ names, (b.output).2.names = some names ∧ names.length = M.toNat ∧
        ∀ d ∈ vars, names[d.index.toNat]? = some d.var_name) ∧
      (M = 0 → (b.output).2.elts = [] ∧ (b.output).2.names = some []) := by
  obtain ⟨_, _, hcover⟩ := wellFormed_index_range h
  obtain ⟨b, hrun, ⟨_, h2, h3, _, _⟩, _, hdecl, _, _⟩ := run_wellformed N M vars vals h
  have hcols : ∀ d ∈ vars, ∃ col, b.output_.elts[d.index.toNat]? = some col ∧
      col.kind = some (kind_of d.type) ∧ col.length = N.toNat := by
    intro d hd
    obtain ⟨col, hc, hsh, _⟩ := hdecl d hd
    simp only [SEXP.shape, Prod.mk.injEq] at hsh
    exact ⟨col, hc, hsh.1, hsh.2.1⟩
  refine ⟨b, hrun, h2, ?_, hcols, ⟨b.names_, rfl, h3, fun d hd => ?_⟩, ?_⟩
  · intro col hcol
    obtain ⟨i, hi, hget⟩ := List.getElem_of_mem hcol
    have hi' : i < M.toNat := by
      have : (b.output).2.elts.length = M.toNat := h2
      omega
    obtain ⟨d, hd, hdi⟩ := hcover i hi'
    obtain ⟨col', hc', hk, hl⟩ := hcols d hd
    have hsame : (b.output).2.elts[i]? = some col := by
      rw [List.getElem?_eq_getElem hi, hget]
    have : some col' = some col := by
      rw [← hc', ← hsame, hdi]
      rfl
    cases this
    exact ⟨hl, by simp [hk]⟩
  · obtain ⟨_, _, _, hname⟩ := hdecl d hd
    exact hname
  · intro hM
    subst hM
    have e1 : b.output_.elts = [] := List.length_eq_zero.mp (by simpa using h2)
    have e2 : b.names_ = [] := List.length_eq_zero.mp (by simpa using h3)
    exact ⟨e1, by simp [DfBuilder.output, e2]⟩

/-- C1 at the first scenario of the spec. -/
theorem output_shape_of_wellformed_stream_witness :
    WellFormed 2 2 scenario_declarations scenario_values ∧
      ∃ b, feed DfBuilder.new (stream 2 2 scenario_declarations scenario_values) = .ok (b, 0) ∧
        (b.output).2.elts.length = (2 : Int).toNat ∧
        (∀ col ∈ (b.output).2.elts, col.length = (2 : Int).toNat ∧ col.kind ≠ none) ∧
        (∀ d ∈ scenario_declarations, ∃ col, (b.output).2.elts[d.index.toNat]? = some col ∧
          col.kind = some (kind_of d.type) ∧ col.length = (2 : Int).toNat) ∧
        (∃ names, (b.output).2.names = some names ∧ names.length = (2 : Int).toNat ∧
          ∀ d ∈ scenario_declarations, names[d.index.toNat]? = some d.var_name) ∧
        ((2 : Int) = 0 → (b.output).2.elts = [] ∧ (b.output).2.names = some []) :=
  ⟨scenario_wellformed,
    output_shape_of_wellformed_stream 2 2 scenario_declarations scenario_values
      scenario_wellformed⟩

/-! ## Fresh cells -/

/-- C2 as stated fails: after `INFO(1,1)` and `VARIABLE(0, "a", INT32)` the only cell of the
column holds `0`, which is not `NA_INTEGER`, and `output()` returns it so. -/
theorem fresh_integer_cell_is_zero :
    ∃ b, feed DfBuilder.new (stream 1 1 unwritten_declarations []) = .ok (b, 0) ∧
      b.cell 0 0 = some (.integer 0) ∧ (b.output).2.cell 0 0 = some (.integer 0) ∧
      b.cell 0 0 ≠ some (missing_cell .integer) :=
  ⟨_, rfl, rfl, rfl, by decide⟩

/-- C2, amended: after `variable(index, ..., type)` on a builder sized by `info(N, M)` the
column at `index` has the kind of `type` and `N` cells, each holding what the host's sized
vector constructor fills in: the empty string in a text column, `0` in an integer column and
`0.0` in a real column; of these only the text content is the kind's missing sentinel.
Consequently, in the output of a well-formed stream every cell of a declared column that no
value event addressed holds that initial content. -/
theorem variable_fills_initial_cells (b0 : DfBuilder) (N M index : Int) (var_name : String)
    (var_format var_label val_labels : Option String) (type : readstat_types_t)
    (hN : 0 ≤ N) (hM : 0 ≤ M) (h0 : 0 ≤ index) (hlt : index < M) :
    (∃ b b' col, b0.info N M = .ok (b, 0) ∧
      b.variable index var_name var_format var_label val_labels type = .ok (b', 0) ∧
      b'.output_.elts[index.toNat]? = some col ∧ col.kind = some (kind_of type) ∧
      col.cells = List.replicate N.toNat (initial_cell (kind_of type)) ∧
      ∀ o, o < N.toNat → b'.cell o index.toNat = some (initial_cell (kind_of type))) ∧
    (initial_cell .text = .text "" ∧ initial_cell .integer = .integer 0 ∧
      initial_cell .real = .real double.zero) ∧
    (∀ k, initial_cell k = missing_cell k ↔ k = .text) ∧
    (∀ vars vals, WellFormed N M vars vals →
      ∃ bf, feed DfBuilder.new (stream N M vars vals) = .ok (bf, 0) ∧
        ∀ d ∈ vars, ∀ o, o < N.toNat → (o, d.index.toNat) ∉ vals.map ValueDatum.address →
          (bf.output).2.cell o d.index.toNat = some (initial_cell (kind_of d.type))) := by
  refine ⟨?_, ⟨rfl, rfl, rfl⟩, ?_, ?_⟩
  · obtain ⟨n, rfl⟩ := Int.eq_ofNat_of_zero_le hN
    obtain ⟨m, rfl⟩ := Int.eq_ofNat_of_zero_le hM
    obtain ⟨i, rfl⟩ := Int.eq_ofNat_of_zero_le h0
    have him : i < m := by omega
    have hs : DfBuilder.Sized
        { b0 with
          nrows_ := n
          ncols_ := m
          output_ := { elts := List.replicate m .NilValue, names := none, class_ := none,
                       row_names := none }
          names_ := List.replicate m ""
          labels_ := List.replicate m ""
          val_labels_ := List.replicate m "" } n m := by
      simp [DfBuilder.Sized]
    have hget : (DfBuilder.declare
        { b0 with
          nrows_ := n
          ncols_ := m
          output_ := { elts := List.replicate m .NilValue, names := none, class_ := none,
                       row_names := none }
          names_ := List.replicate m ""
          labels_ := List.replicate m ""
          val_labels_ := List.replicate m "" } n i var_name var_label val_labels
          type).output_.elts[i]? = some (fresh_column n type var_label) := by
      simp [DfBuilder.declare, List.getElem?_set, him]
    refine ⟨_, _, fresh_column n type var_label, info_ok b0 n m,
      variable_ok _ n m i var_name var_format var_label val_labels type hs him, ?_, ?_, ?_, ?_⟩
    · simpa using hget
    · have := fresh_column_shape n type var_label
      simp only [SEXP.shape, Prod.mk.injEq] at this
      exact this.1
    · simpa using fresh_column_cells n type var_label
    · intro o ho
      simp only [Int.toNat_ofNat] at ho ⊢
      simp [DfBuilder.cell, hget, fresh_column_cells, ho]
  · intro k
    cases k <;> simp [initial_cell, missing_cell, NA_INTEGER, NA_REAL, double.zero]
  · intro vars vals hwf
    obtain ⟨bf, hrun, _, _, _, hfresh, _⟩ := run_wellformed N M vars vals hwf
    exact ⟨bf, hrun, hfresh⟩

/-- C2, amended, at `INFO(2, 2)` and a `DOUBLE` declaration for column 1. -/
theorem variable_fills_initial_cells_witness :
    ((0 : Int) ≤ 2 ∧ (0 : Int) ≤ 2 ∧ (0 : Int) ≤ 1 ∧ (1 : Int) < 2) ∧
      ∃ b b' col, DfBuilder.new.info 2 2 = .ok (b, 0) ∧
        b.variable 1 "b" none (some "B label") none .READSTAT_TYPE_DOUBLE = .ok (b', 0) ∧
        b'.output_.elts[(1 : Int).toNat]? = some col ∧
        col.kind = some (kind_of .READSTAT_TYPE_DOUBLE) ∧
        col.cells = List.replicate (2 : Int).toNat (initial_cell (kind_of .READSTAT_TYPE_DOUBLE)) ∧
        ∀ o, o < (2 : Int).toNat →
          b'.cell o (1 : Int).toNat = some (initial_cell (kind_of .READSTAT_TYPE_DOUBLE)) :=
  ⟨by decide,
    (variable_fills_initial_cells DfBuilder.new 2 2 1 "b" none (some "B label") none
      .READSTAT_TYPE_DOUBLE (by decide) (by decide) (by decide) (by decide)).1⟩

/-! ## Cancellation -/

theorem cancellation_wellformed (k : Nat) (hk : k ≤ 2001) :
    WellFormed 2001 1 cancellation_declarations (cancellation_values k) := by
  refine ⟨by decide, by decide, by decide, ?_⟩
  intro e he
  simp only [cancellation_values, List.mem_map, List.mem_range] at he
  obtain ⟨i, hi, rfl⟩ := he
  have hi' : (i : Int) < 2001 := by omega
  exact ⟨Int.ofNat_nonneg i, hi', _, List.mem_singleton_self _, rfl, rfl⟩

/-- C4 as stated fails: in the cancellation scenario, after rows 0 to 999 of the single
integer column were delivered, the `VALUE` event for row 1000 with an interrupt pending does
not come back with a nonzero status; the handler is left through the interrupt exception. -/
theorem cancellation_returns_no_status :
    ∃ b, feed DfBuilder.new
          (stream 2001 1 cancellation_declarations (cancellation_values 1000)) = .ok (b, 0) ∧
      dfbuilder_handle b true (.value 1000 0 (int_value 1000) .READSTAT_TYPE_INT32) =
        .error .interrupted ∧
      ¬ ∃ b' st, dfbuilder_handle b true
          (.value 1000 0 (int_value 1000) .READSTAT_TYPE_INT32) = .ok (b', st) ∧ st ≠ 0 := by
  obtain ⟨b, hrun, _⟩ := run_wellformed 2001 1 cancellation_declarations
    (cancellation_values 1000) (cancellation_wellformed 1000 (by decide))
  have hv : dfbuilder_handle b true (.value 1000 0 (int_value 1000) .READSTAT_TYPE_INT32) =
      .error .interrupted := by
    simp only [dfbuilder_handle, value_eq]
    rfl
  refine ⟨b, hrun, hv, ?_⟩
  rintro ⟨b', st, h, _⟩
  rw [hv] at h
  cases h

/-- C4, amended: when an interrupt is pending and `value(obs, var, ...)` is called at a
1000-stride boundary (`obs % 1000 == 0` or `var % 1000 == 0`), the handler does not return a
status: `checkUserInterrupt()` raises the host's interrupt exception before any cell is
touched, and the trampoline `dfbuilder_value` lets it through.  Every call of `value` that
does return, returns 0. -/
theorem value_interrupt_raises (b : DfBuilder) (obs_index var_index : Int)
    (value : readstat_value) (type : readstat_types_t)
    (h : Int.tmod obs_index 1000 = 0 ∨ Int.tmod var_index 1000 = 0) :
    b.value true obs_index var_index value type = .error .interrupted ∧
      dfbuilder_handle b true (.value obs_index var_index value type) = .error .interrupted ∧
      ∀ p o j v ty b' st, b.value p o j v ty = .ok (b', st) → st = 0 := by
  have hv : b.value true obs_index var_index value type = .error .interrupted := by
    have hs : stride_boundary obs_index var_index = true := by
      simpa [stride_boundary] using h
    simp [value_eq, hs]
  exact ⟨hv, hv, fun p o j v ty b' st hret => (value_returns hret).1⟩

/-- C4, amended, at event #1000 of the cancellation scenario: row 1000, column 0. -/
theorem value_interrupt_raises_witness :
    (Int.tmod 1000 1000 = 0 ∨ Int.tmod 0 1000 = 0) ∧
      scenario_builder.value true 1000 0 (int_value 1000) .READSTAT_TYPE_INT32 =
        .error .interrupted :=
  ⟨by decide,
    (value_interrupt_raises scenario_builder 1000 0 (int_value 1000) .READSTAT_TYPE_INT32
      (by decide)).1⟩

/-! ## Value labels -/

/-- C5 as stated fails: after the two `VALUE_LABEL` events for set "L" on a fresh builder
the registry is empty; it does not hold a set "L" with the pairs ("one", "1"), ("two", "2"). -/
theorem value_label_registry_stays_empty :
    ∃ b, feed DfBuilder.new label_events = .ok (b, 0) ∧ b.label_sets_ = [] ∧
      b.label_sets_ ≠ [("L", { labels := ["one", "two"], values := ["1", "2"] })] :=
  ⟨_, rfl, rfl, by decide⟩

/-- C5, amended: `value_label(name, value, type, label)` returns 0 and leaves the builder,
its label-set registry included, exactly as it was; so any run of `VALUE_LABEL` events ends
normally in the state it started from, and on a fresh builder the registry stays empty. -/
theorem value_label_changes_nothing (b : DfBuilder) (name : String) (value : readstat_value)
    (type : readstat_types_t) (label : String)
    (events : List (String × readstat_value × readstat_types_t × String)) :
    b.value_label name value type label = (b, 0) ∧
      feed b (events.map fun l => .value_label l.1 l.2.1 l.2.2.1 l.2.2.2) = .ok (b, 0) ∧
      (feed DfBuilder.new (events.map fun l => .value_label l.1 l.2.1 l.2.2.1 l.2.2.2)).map
        (fun r => r.1.label_sets_) = .ok [] := by
  have hfeed : ∀ (b : DfBuilder),
      feed b (events.map fun l => .value_label l.1 l.2.1 l.2.2.1 l.2.2.2) = .ok (b, 0) := by
    intro b
    induction events with
    | nil => rfl
    | cons l ls ih =>
      have hstep : dfbuilder_handle b false (.value_label l.1 l.2.1 l.2.2.1 l.2.2.2) =
          .ok (b, 0) := rfl
      rw [List.map_cons, feed_cons_ok _ hstep]
      exact ih
  refine ⟨rfl, hfeed b, ?_⟩
  rw [hfeed]
  rfl

/-! ## Column labels -/

/-- No normal return of `value` changes any column's kind, length or label. -/
theorem value_keeps_shapes {b b' : DfBuilder} {p : Bool} {obs var : Int} {v : readstat_value}
    {ty : readstat_types_t} {st : Int} (h : b.value p obs var v ty = .ok (b', st)) :
    b'.output_.elts.map SEXP.shape = b.output_.elts.map SEXP.shape := by
  obtain ⟨_, _, col, col', hcol, hassign, rfl⟩ := value_returns h
  obtain ⟨hk, hl, hn, _⟩ := assign_cell_frame hassign
  exact with_column_shape b _ col col' hcol (by simp [SEXP.shape, hk, hl, hn])

/-- C6: `variable` on a sized builder, for an index in range, leaves at that index a column
whose `"label"` attribute is present exactly when a display label was supplied and then
equals it; no call of `value` that returns changes the label of any column, and `output()`
hands the columns over as they are. -/
theorem variable_label_attribute (b : DfBuilder) (nrows ncols : Nat) (index : Int)
    (var_name : String) (var_format var_label val_labels : Option String)
    (type : readstat_types_t) (hs : b.Sized nrows ncols) (h0 : 0 ≤ index)
    (hlt : index < ncols) :
    (∃ b' col, b.variable index var_name var_format var_label val_labels type = .ok (b', 0) ∧
      b'.output_.elts[index.toNat]? = some col ∧ col.label = var_label ∧
      (col.label.isSome = true ↔ var_label.isSome = true)) ∧
    (∀ (s s' : DfBuilder) (p : Bool) (obs var : Int) (v : readstat_value)
        (ty : readstat_types_t) (st : Int), s.value p obs var v ty = .ok (s', st) →
      s'.output_.elts.map SEXP.label = s.output_.elts.map SEXP.label) ∧
    (∀ s : DfBuilder, (s.output).1.output_.elts = s.output_.elts ∧
      (s.output).2.elts = s.output_.elts) := by
  refine ⟨?_, ?_, fun s => ⟨rfl, rfl⟩⟩
  · obtain ⟨i, rfl⟩ := Int.eq_ofNat_of_zero_le h0
    have him : i < ncols := by omega
    have hlen : i < b.output_.elts.length := by rw [hs.2.1]; exact him
    refine ⟨_, fresh_column nrows type var_label,
      variable_ok b nrows ncols i var_name var_format var_label val_labels type hs him, ?_, ?_, ?_⟩
    · simp [DfBuilder.declare, List.getElem?_set, hlen]
    · have := fresh_column_shape nrows type var_label
      simp only [SEXP.shape, Prod.mk.injEq] at this
      exact this.2.2
    · have := fresh_column_shape nrows type var_label
      simp only [SEXP.shape, Prod.mk.injEq] at this
      rw [this.2.2]
  · intro s s' p obs var v ty st hret
    have := congrArg (List.map fun t : Option Kind × Nat × Option String => t.2.2)
      (value_keeps_shapes hret)
    simpa [List.map_map, Function.comp_def, SEXP.shape] using this

/-- C6 at the labelled declaration of the first scenario, on the state after `INFO(2,2)`. -/
theorem variable_label_attribute_witness :
    (DfBuilder.new.info 2 2 = .ok (scenario_sized, 0) ∧ scenario_sized.Sized 2 2 ∧
        (0 : Int) ≤ 1 ∧ (1 : Int) < (2 : Nat)) ∧
      ∃ b' col, scenario_sized.variable 1 "b" none (some "B label") none
          .READSTAT_TYPE_DOUBLE = .ok (b', 0) ∧
        b'.output_.elts[(1 : Int).toNat]? = some col ∧ col.label = some "B label" ∧
        (col.label.isSome = true ↔ (some "B label").isSome = true) :=
  ⟨⟨rfl, ⟨rfl, rfl, rfl, rfl, rfl⟩, by decide, by decide⟩,
    (variable_label_attribute scenario_sized 2 2 1 "b" none (some "B label") none
      .READSTAT_TYPE_DOUBLE ⟨rfl, rfl, rfl, rfl, rfl⟩ (by decide) (by decide)).1⟩

/-! ## Present numeric values -/

theorem scenario_addresses_nodup : (scenario_values.map ValueDatum.address).Nodup := by
  decide

/-- C7: in the run of a well-formed stream in which no cell is addressed twice, the output
cell of every value event that is not reported missing holds what the accessor of the
event's type returns: `as_int16` for INT16 and `as_int32` for INT32 in an integer column,
`as_float` for FLOAT and `as_double` for DOUBLE in a real column. -/
theorem output_cells_of_present_values (N M : Int) (vars : List VariableDecl)
    (vals : List ValueDatum) (h : WellFormed N M vars vals)
    (hnd : (vals.map ValueDatum.address).Nodup) :
    ∃ b, feed DfBuilder.new (stream N M vars vals) = .ok (b, 0) ∧
      ∀ e ∈ vals, readstat_value_is_missing e.value = false →
        (e.type = .READSTAT_TYPE_INT16 →
          (b.output).2.cell e.obs_index.toNat e.var_index.toNat =
            some (.integer (readstat_int16_value e.value))) ∧
        (e.type = .READSTAT_TYPE_INT32 →
          (b.output).2.cell e.obs_index.toNat e.var_index.toNat =
            some (.integer (readstat_int32_value e.value))) ∧
        (e.type = .READSTAT_TYPE_FLOAT →
          (b.output).2.cell e.obs_index.toNat e.var_index.toNat =
            some (.real (readstat_float_value e.value))) ∧
        (e.type = .READSTAT_TYPE_DOUBLE →
          (b.output).2.cell e.obs_index.toNat e.var_index.toNat =
            some (.real (readstat_double_value e.value))) := by
  obtain ⟨b, hrun, _, _, _, _, hlast⟩ := run_wellformed N M vars vals h
  refine ⟨b, hrun, fun e he hpresent => ?_⟩
  have hcell : (b.output).2.cell e.obs_index.toNat e.var_index.toNat =
      some (written_cell e.value e.type) := hlast hnd e he
  refine ⟨?_, ?_, ?_, ?_⟩ <;> intro hty <;> rw [hcell, hty] <;>
    simp [written_cell, hpresent]

/-- C7 at the first scenario of the spec: the run yields `a = [1, NA_INTEGER]`,
`b = [3.5, NA_REAL]` with label "B label" on `b`. -/
theorem output_cells_of_present_values_witness :
    (WellFormed 2 2 scenario_declarations scenario_values ∧
      (scenario_values.map ValueDatum.address).Nodup) ∧
    (∃ b, feed DfBuilder.new (stream 2 2 scenario_declarations scenario_values) = .ok (b, 0) ∧
      ∀ e ∈ scenario_values, readstat_value_is_missing e.value = false →
        (e.type = .READSTAT_TYPE_INT16 →
          (b.output).2.cell e.obs_index.toNat e.var_index.toNat =
            some (.integer (readstat_int16_value e.value))) ∧
        (e.type = .READSTAT_TYPE_INT32 →
          (b.output).2.cell e.obs_index.toNat e.var_index.toNat =
            some (.integer (readstat_int32_value e.value))) ∧
        (e.type = .READSTAT_TYPE_FLOAT →
          (b.output).2.cell e.obs_index.toNat e.var_index.toNat =
            some (.real (readstat_float_value e.value))) ∧
        (e.type = .READSTAT_TYPE_DOUBLE →
          (b.output).2.cell e.obs_index.toNat e.var_index.toNat =
            some (.real (readstat_double_value e.value)))) ∧
    (feed DfBuilder.new (stream 2 2 scenario_declarations scenario_values)).map
        (fun r => (r.1.output).2) = .ok scenario_frame ∧
    NA_REAL.isNaN = true :=
  ⟨⟨scenario_wellformed, scenario_addresses_nodup⟩,
    output_cells_of_present_values 2 2 scenario_declarations scenario_values
      scenario_wellformed scenario_addresses_nodup,
    rfl, by decide⟩

/-! ## Text values -/

/-- C9: in every builder state whose row count is not negative, `output()` sets `row.names`
to the two integers `NA_INTEGER, -nrows`; and the run of a well-formed stream with `N = 0` rows yields a frame whose
columns are all vectors of length zero and whose `row.names` is `NA_INTEGER, 0`. -/
theorem output_row_names (b : DfBuilder) (hN : 0 ≤ b.nrows_) :
    (b.output).2.row_names = some [NA_INTEGER, -b.nrows_] ∧
      (b.nrows_ = 0 → (b.output).2.row_names = some [NA_INTEGER, 0]) ∧
      (∀ (N M : Int) (vars : List VariableDecl) (vals : List ValueDatum),
        WellFormed N M vars vals →
        ∃ bf, feed DfBuilder.new (stream N M vars vals) = .ok (bf, 0) ∧
          (bf.output).2.row_names = some [NA_INTEGER, -N] ∧
          (bf.output).2.elts.length = M.toNat ∧
          (∀ col ∈ (bf.output).2.elts, col.length = N.toNat ∧ col.kind ≠ none) ∧
          (N = 0 → (bf.output).2.row_names = some [NA_INTEGER, 0] ∧
            ∀ col ∈ (bf.output).2.elts, col.length = 0)) := by
  refine ⟨rfl, fun h0 => by simp [DfBuilder.output, h0], ?_⟩
  intro N M vars vals hwf
  obtain ⟨_, _, hcover⟩ := wellFormed_index_range hwf
  obtain ⟨bf, hrun, ⟨h1, h2, _, _, _⟩, _, hdecl, _, _⟩ := run_wellformed N M vars vals hwf
  have hN : (N.toNat : Int) = N := Int.toNat_of_nonneg hwf.1
  have hrows : (bf.output).2.row_names = some [NA_INTEGER, -N] := by
    simp [DfBuilder.output, h1, hN]
  have hcols : ∀ col ∈ (bf.output).2.elts, col.length = N.toNat ∧ col.kind ≠ none := by
    intro col hcol
    obtain ⟨i, hi, hget⟩ := List.getElem_of_mem hcol
    have hi' : i < M.toNat := by
      have : (bf.output).2.elts.length = M.toNat := h2
      omega
    obtain ⟨d, hd, hdi⟩ := hcover i hi'
    obtain ⟨col', hc', hsh, _⟩ := hdecl d hd
    simp only [SEXP.shape, Prod.mk.injEq] at hsh
    have hsame : (bf.output).2.elts[i]? = some col := by
      rw [List.getElem?_eq_getElem hi, hget]
    have : some col' = some col := by
      rw [← hc', ← hsame, hdi]
      rfl
    cases this
    exact ⟨hsh.2.1, by simp [hsh.1]⟩
  refine ⟨bf, hrun, hrows, h2, hcols, ?_⟩
  intro h0
  subst h0
  exact ⟨by simpa using hrows, fun col hcol => by simpa using (hcols col hcol).1⟩

/-- C10: whatever the builder state, `output()` returns a frame whose `class` attribute is
the sequence "tbl_df", "tbl", "data.frame"; so it is for a builder no event has reached, and
after a second call. -/
theorem output_class (b : DfBuilder) :
    (b.output).2.class_ = some ["tbl_df", "tbl", "data.frame"] ∧
      (DfBuilder.new.output).2.class_ = some ["tbl_df", "tbl", "data.frame"] ∧
      ((b.output).1.output).2.class_ = some ["tbl_df", "tbl", "data.frame"] :=
  ⟨rfl, rfl, rfl⟩

/-- C9 at a fresh builder and at the stream `INFO(0, 1)` with one integer column: the frame
has one column of length zero and `row.names` is `NA_INTEGER, 0`. -/
theorem output_row_names_witness :
    (0 : Int) ≤ DfBuilder.new.nrows_ ∧ WellFormed 0 1 unwritten_declarations [] ∧
      (DfBuilder.new.output).2.row_names = some [NA_INTEGER, 0] ∧
      ∃ bf, feed DfBuilder.new (stream 0 1 unwritten_declarations []) = .ok (bf, 0) ∧
        (bf.output).2.row_names = some [NA_INTEGER, -0] ∧
        (bf.output).2.elts.length = (1 : Int).toNat ∧
        (∀ col ∈ (bf.output).2.elts, col.length = (0 : Int).toNat ∧ col.kind ≠ none) ∧
        ((0 : Int) = 0 → (bf.output).2.row_names = some [NA_INTEGER, 0] ∧
          ∀ col ∈ (bf.output).2.elts, col.length = 0) :=
  ⟨by decide, by unfold WellFormed; decide,
    (output_row_names DfBuilder.new (by decide)).2.1 rfl,
    (output_row_names DfBuilder.new (by decide)).2.2 0 1 unwritten_declarations []
      (by unfold WellFormed; decide)⟩

/-! ## The parse driver -/

/-- C11: `df_parse` fails with a message exactly when the decoder returns a status that is
not zero, and the message then is "Failed to parse ", the file name, ": ", the decoder
library's message for that status, "."; it returns a frame exactly when the decoder returns
status zero, and the frame then is `output()` of the builder the decoder's callbacks worked
on; the only other way out is an exception that left a callback, which is passed on. -/
theorem df_parse_outcome (filename : String)
    (parse_f : String → DfBuilder → Except Fault (DfBuilder × Int))
    (readstat_error_message : Int → String) :
    (∀ message, df_parse filename parse_f readstat_error_message = .error (.stop message) ↔
        ∃ builder result, parse_f filename DfBuilder.new = .ok (builder, result) ∧
          result ≠ 0 ∧
          message = "Failed to parse " ++ filename ++ ": " ++ readstat_error_message result
            ++ ".") ∧
      (∀ frame, df_parse filename parse_f readstat_error_message = .ok frame ↔
        ∃ builder, parse_f filename DfBuilder.new = .ok (builder, 0) ∧
          frame = (builder.output).2) ∧
      (∀ f, df_parse filename parse_f readstat_error_message = .error (.fault f) ↔
        parse_f filename DfBuilder.new = .error f) := by
  unfold df_parse
  cases hrun : parse_f filename DfBuilder.new with
  | error f0 =>
    refine ⟨fun message => ⟨fun h => (by cases h), ?_⟩,
      fun frame => ⟨fun h => (by cases h), ?_⟩,
      fun f => ⟨fun h => (by cases h; rfl), fun h => (by cases h; rfl)⟩⟩
    · rintro ⟨_, _, h, _⟩
      cases h
    · rintro ⟨_, h, _⟩
      cases h
  | ok r =>
    obtain ⟨builder, result⟩ := r
    by_cases hr : result = 0
    · subst hr
      refine ⟨fun message => ⟨fun h => (by simp at h), ?_⟩, fun frame => ⟨fun h => ?_, ?_⟩,
        fun f => ⟨fun h => (by simp at h), fun h => (by cases h)⟩⟩
      · rintro ⟨_, _, h, hne, _⟩
        cases h
        exact absurd rfl hne
      · simp only [ne_eq, not_true_eq_false, if_false, Except.ok.injEq] at h
        exact ⟨builder, rfl, h.symm⟩
      · rintro ⟨_, h, rfl⟩
        cases h
        simp
    · refine ⟨fun message => ⟨fun h => ?_, ?_⟩,
        fun frame => ⟨fun h => (by simp [hr] at h), ?_⟩,
        fun f => ⟨fun h => (by simp [hr] at h), fun h => (by cases h)⟩⟩
      · simp only [ne_eq, hr, not_false_eq_true, if_true, Except.error.injEq,
          ParseFailure.stop.injEq] at h
        exact ⟨builder, result, rfl, hr, h.symm⟩
      · rintro ⟨_, _, h, _, rfl⟩
        cases h
        simp [hr]
      · rintro ⟨_, h, _⟩
        cases h
        exact absurd rfl hr

/-- C11 at the decoder-failure scenario: no events, status 7 with message "bad magic", file
"f.sav"; and at the first scenario with status 0. -/
theorem df_parse_outcome_witness :
    df_parse "f.sav" (scripted_decoder [] 7) (scripted_message 7 "bad magic") =
        .error (.stop "Failed to parse f.sav: bad magic.") ∧
      df_parse "f.sav" (scripted_decoder (stream 2 2 scenario_declarations scenario_values) 0)
        (scripted_message 7 "bad magic") = .ok scenario_frame :=
  ⟨((df_parse_outcome "f.sav" (scripted_decoder [] 7) (scripted_message 7 "bad magic")).1
      "Failed to parse f.sav: bad magic.").mpr ⟨DfBuilder.new, 7, rfl, by decide, rfl⟩,
    ((df_parse_outcome "f.sav"
      (scripted_decoder (stream 2 2 scenario_declarations scenario_values) 0)
      (scripted_message 7 "bad magic")).2.1 scenario_frame).mpr
      ⟨(scenario_builder.with_column 0 (.INTSXP [1, NA_INTEGER] none)).with_column 1
          (.REALSXP [double.three_and_a_half, NA_REAL] (some "B label")), rfl, rfl⟩⟩

/-! ## Label sets -/

theorem build_append (pairs : List (String × String)) (p : String × String) :
    LabelSet.build (pairs ++ [p]) = (LabelSet.build pairs).add p.1 p.2 := by
  simp [LabelSet.build, List.foldl_append]

theorem build_labels (pairs : List (String × String)) :
    (LabelSet.build pairs).labels = pairs.map Prod.fst ∧
      (LabelSet.build pairs).values = pairs.map Prod.snd := by
  induction pairs using List.reverseRecOn with
  | nil => exact ⟨rfl, rfl⟩
  | append_singleton ps p ih =>
    rw [build_append]
    simp [LabelSet.add, ih.1, ih.2]

theorem find_label_eq_neg_one (s : LabelSet) (label : String) :
    s.find_label label = -1 ↔ label ∉ s.labels := by
  unfold LabelSet.find_label
  simp only
  split
  · rename_i h
    simp [List.indexOf_eq_length.mp h]
  · rename_i h
    have hmem : label ∈ s.labels := by
      by_contra hn
      exact h (List.indexOf_eq_length.mpr hn)
    simp only [hmem, not_true_eq_false, iff_false]
    omega

theorem find_label_of_mem (s : LabelSet) (label : String) (h : label ∈ s.labels) :
    s.find_label label = (s.labels.indexOf label : Int) := by
  unfold LabelSet.find_label
  simp only
  rw [if_neg]
  exact fun he => (List.indexOf_eq_length.mp he) h

/-- C12: for every label set, in particular every one built by a sequence of `add` calls,
and every query, `find_label` returns `-1` exactly when no label of the set equals the
query, and otherwise the least index at which the query was added; on the empty set it
returns `-1`. -/
theorem find_label_first_match (s : LabelSet) (pairs : List (String × String))
    (label : String) :
    (s.find_label label = -1 ↔ label ∉ s.labels) ∧
      (∀ i : Nat, s.find_label label = (i : Int) ↔
        (s.labels[i]? = some label ∧ ∀ j, j < i → s.labels[j]? ≠ some label)) ∧
      ((LabelSet.build pairs).labels = pairs.map Prod.fst ∧
        ((LabelSet.build pairs).find_label label = -1 ↔ label ∉ pairs.map Prod.fst)) ∧
      LabelSet.new.find_label label = -1 := by
  refine ⟨find_label_eq_neg_one s label, ?_, ⟨(build_labels pairs).1, ?_⟩, rfl⟩
  · intro i
    by_cases hmem : label ∈ s.labels
    · have hlt : s.labels.indexOf label < s.labels.length := List.indexOf_lt_length.mpr hmem
      have hget : s.labels[s.labels.indexOf label] = label := List.getElem_indexOf hlt
      have hleast : ∀ j, j < s.labels.indexOf label → s.labels[j]? ≠ some label := by
        intro j hj hsome
        have hjl : j < s.labels.length := by omega
        rw [List.getElem?_eq_getElem hjl] at hsome
        have hne := @List.not_of_lt_findIdx _ (fun x => x == label) s.labels j hj
        simp only [beq_eq_false_iff_ne, ne_eq] at hne
        exact hne (Option.some.inj hsome)
      rw [find_label_of_mem s label hmem]
      constructor
      · intro h
        have hi : s.labels.indexOf label = i := by exact_mod_cast h
        subst hi
        exact ⟨by rw [List.getElem?_eq_getElem hlt, hget], hleast⟩
      · rintro ⟨hat, hbefore⟩
        have h1 : ¬ s.labels.indexOf label < i := fun hlt' =>
          hbefore _ hlt' (by rw [List.getElem?_eq_getElem hlt, hget])
        have h2 : ¬ i < s.labels.indexOf label := fun hlt' => hleast i hlt' hat
        have : s.labels.indexOf label = i := by omega
        exact_mod_cast this
    · rw [(find_label_eq_neg_one s label).mpr hmem]
      constructor
      · intro h
        omega
      · rintro ⟨hat, _⟩
        exact absurd (List.getElem?_mem hat) hmem
  · rw [find_label_eq_neg_one, (build_labels pairs).1]

/-- C13: `add` appends one pair, duplicate label or not: both sequences grow by one, every
earlier entry stays where it was, the last pair is the one added, and sequences of equal
length stay of equal length (as they are in every set built by `add` calls).  Hence
`find_label` is unchanged for every label that was found before, and a label that was not
present is found at the old size. -/
theorem add_appends (s : LabelSet) (label value : String) (pairs : List (String × String)) :
    ((s.add label value).labels = s.labels ++ [label] ∧
        (s.add label value).values = s.values ++ [value]) ∧
      ((s.add label value).labels.length = s.labels.length + 1 ∧
        (s.add label value).values.length = s.values.length + 1) ∧
      (∀ i, i < s.labels.length → (s.add label value).labels[i]? = s.labels[i]?) ∧
      (∀ i, i < s.values.length → (s.add label value).values[i]? = s.values[i]?) ∧
      ((s.add label value).labels.getLast? = some label ∧
        (s.add label value).values.getLast? = some value) ∧
      (s.labels.length = s.values.length →
        (s.add label value).labels.length = (s.add label value).values.length ∧
        (s.add label value).pairs = s.pairs ++ [(label, value)]) ∧
      ((LabelSet.build pairs).labels.length = (LabelSet.build pairs).values.length ∧
        (LabelSet.build pairs).pairs = pairs) ∧
      (∀ l, s.find_label l ≠ -1 → (s.add label value).find_label l = s.find_label l) ∧
      (s.find_label label = -1 →
        (s.add label value).find_label label = (s.labels.length : Int)) := by
  refine ⟨⟨rfl, rfl⟩, ⟨by simp [LabelSet.add], by simp [LabelSet.add]⟩, ?_, ?_,
    ⟨by simp [LabelSet.add], by simp [LabelSet.add]⟩, ?_, ?_, ?_, ?_⟩
  · intro i hi
    simp [LabelSet.add, List.getElem?_append_left hi]
  · intro i hi
    simp [LabelSet.add, List.getElem?_append_left hi]
  · intro hlen
    refine ⟨by simp [LabelSet.add, hlen], ?_⟩
    simp [LabelSet.pairs, LabelSet.add, List.zip_append hlen]
  · obtain ⟨h1, h2⟩ := build_labels pairs
    refine ⟨by simp [h1, h2], ?_⟩
    rw [LabelSet.pairs, h1, h2]
    exact (List.zip_of_prod rfl rfl).symm
  · intro l hl
    have hmem : l ∈ s.labels := by
      by_contra hn
      exact hl ((find_label_eq_neg_one s l).mpr hn)
    have hmem' : l ∈ (s.add label value).labels := by
      simp [LabelSet.add, hmem]
    rw [find_label_of_mem _ _ hmem', find_label_of_mem _ _ hmem]
    simp [LabelSet.add, List.indexOf_append_of_mem hmem]
  · intro hnot
    have hn : label ∉ s.labels := (find_label_eq_neg_one s label).mp hnot
    have hmem' : label ∈ (s.add label value).labels := by
      simp [LabelSet.add]
    rw [find_label_of_mem _ _ hmem']
    simp [LabelSet.add, List.indexOf_append_of_not_mem hn]

/-! ## `output` twice -/

/-- C14: `output()` leaves every column as it is (cells, kind, length and label are parts of
the column), changes no other field of the builder, and a second call right after the first
returns an equal frame: same columns, `names`, `class` and `row.names`. -/
theorem output_twice (b : DfBuilder) :
    ((b.output).1.output_.elts = b.output_.elts ∧ (b.output).2.elts = b.output_.elts) ∧
      (∀ i : Nat,
        ((b.output).2.elts[i]?).map SEXP.cells = (b.output_.elts[i]?).map SEXP.cells ∧
        ((b.output).2.elts[i]?).map SEXP.shape = (b.output_.elts[i]?).map SEXP.shape) ∧
      ((b.output).1.nrows_ = b.nrows_ ∧ (b.output).1.ncols_ = b.ncols_ ∧
        (b.output).1.names_ = b.names_ ∧ (b.output).1.labels_ = b.labels_ ∧
        (b.output).1.val_labels_ = b.val_labels_ ∧
        (b.output).1.label_sets_ = b.label_sets_) ∧
      ((b.output).1.output).2 = (b.output).2 ∧
      ((b.output).1.output).1 = (b.output).1 :=
  ⟨⟨rfl, rfl⟩, fun _ => ⟨rfl, rfl⟩, ⟨rfl, rfl, rfl, rfl, rfl, rfl⟩, rfl, rfl⟩

/-! ## Character values -/

/-- C15: an in-range value event of type TEXT_CHAR on a text column makes `value` return 0
and leaves in the cell the text made of the one character the character accessor
returns. -/
theorem value_char_stores_one_character (b : DfBuilder) (obs_index var_index : Int)
    (value : readstat_value) (col : SEXP) (hobs : 0 ≤ obs_index) (hvar : 0 ≤ var_index)
    (hcol : b.output_.elts[var_index.toNat]? = some col)
    (hrange : obs_index < col.length) (hkind : col.kind = some .text) :
    ∃ b', b.value false obs_index var_index value .READSTAT_TYPE_CHAR = .ok (b', 0) ∧
      b'.cell obs_index.toNat var_index.toNat =
        some (.text (String.singleton (readstat_char_value value))) ∧
      (String.singleton (readstat_char_value value)).data = [readstat_char_value value] := by
  obtain ⟨o, rfl⟩ := Int.eq_ofNat_of_zero_le hobs
  obtain ⟨j, rfl⟩ := Int.eq_ofNat_of_zero_le hvar
  simp only [Int.toNat_ofNat] at hcol ⊢
  have ho : o < col.length := by exact_mod_cast hrange
  have hk : col.kind = some (kind_of .READSTAT_TYPE_CHAR) := hkind
  exact ⟨_, value_ok b o j value _ col hcol hk ho, value_ok_cell b o j value _ col hcol hk ho,
    rfl⟩

/-- C15 at the scenario of the spec: a TEXT_CHAR column `c` and the character `X` give
`c = ["X"]`. -/
theorem value_char_stores_one_character_witness :
    (∃ b', (DfBuilder.with_column scenario_sized 0 (.STRSXP ["", ""] none)).value false 0 0
          (char_value 'X') .READSTAT_TYPE_CHAR = .ok (b', 0) ∧
        b'.cell (0 : Int).toNat (0 : Int).toNat =
          some (.text (String.singleton (readstat_char_value (char_value 'X')))) ∧
        (String.singleton (readstat_char_value (char_value 'X'))).data =
          [readstat_char_value (char_value 'X')]) ∧
      (feed DfBuilder.new (stream 1 1 char_declarations char_values)).map
          (fun r => (r.1.output).2.elts) = .ok [.STRSXP ["X"] none] :=
  ⟨value_char_stores_one_character (DfBuilder.with_column scenario_sized 0
        (.STRSXP ["", ""] none)) 0 0 (char_value 'X') (.STRSXP ["", ""] none)
      (by decide) (by decide) rfl (by decide) rfl,
    rfl⟩

/-! ## Declarations -/

/-- C16: `variable` on a sized builder, for an index in range and each of the seven types,
returns 0 and leaves at the index a column of `nrows` cells: a text column for TEXT_LONG,
TEXT and TEXT_CHAR, an integer column for INT16 and INT32, a real column for FLOAT and
DOUBLE; the name at the index becomes the supplied name; every other column slot and every
other name stay as they were. -/
theorem variable_allocates_by_type (b : DfBuilder) (nrows ncols : Nat) (index : Int)
    (var_name : String) (var_format var_label val_labels : Option String)
    (type : readstat_types_t) (hs : b.Sized nrows ncols) (h0 : 0 ≤ index)
    (hlt : index < ncols) :
    ∃ b' col, b.variable index var_name var_format var_label val_labels type = .ok (b', 0) ∧
      b'.output_.elts[index.toNat]? = some col ∧ col.length = nrows ∧
      ((type = .READSTAT_TYPE_LONG_STRING ∨ type = .READSTAT_TYPE_STRING ∨
          type = .READSTAT_TYPE_CHAR) → col.kind = some .text) ∧
      ((type = .READSTAT_TYPE_INT16 ∨ type = .READSTAT_TYPE_INT32) →
        col.kind = some .integer) ∧
      ((type = .READSTAT_TYPE_FLOAT ∨ type = .READSTAT_TYPE_DOUBLE) →
        col.kind = some .real) ∧
      b'.names_[index.toNat]? = some var_name ∧
      (∀ i, i ≠ index.toNat →
        b'.output_.elts[i]? = b.output_.elts[i]? ∧ b'.names_[i]? = b.names_[i]?) ∧
      b'.output_.elts.length = b.output_.elts.length ∧
      b'.names_.length = b.names_.length := by
  obtain ⟨i, rfl⟩ := Int.eq_ofNat_of_zero_le h0
  have him : i < ncols := by omega
  have hlen : i < b.output_.elts.length := by rw [hs.2.1]; exact him
  have hlen' : i < b.names_.length := by rw [hs.2.2.1]; exact him
  have hsh := fresh_column_shape nrows type var_label
  simp only [SEXP.shape, Prod.mk.injEq] at hsh
  refine ⟨_, fresh_column nrows type var_label,
    variable_ok b nrows ncols i var_name var_format var_label val_labels type hs him,
    ?_, hsh.2.1, ?_, ?_, ?_, ?_, ?_, ?_, ?_⟩
  · simp [DfBuilder.declare, List.getElem?_set, hlen]
  · intro h
    rw [hsh.1]
    rcases h with rfl | rfl | rfl <;> rfl
  · intro h
    rw [hsh.1]
    rcases h with rfl | rfl <;> rfl
  · intro h
    rw [hsh.1]
    rcases h with rfl | rfl <;> rfl
  · simp [DfBuilder.declare, List.getElem?_set, hlen']
  · intro k hk
    simp only [Int.toNat_ofNat] at hk
    simp [DfBuilder.declare, List.getElem?_set, Ne.symm hk]
  · simp [DfBuilder.declare]
  · simp [DfBuilder.declare]

/-- C16 at the two declarations of the first scenario, on the state after `INFO(2,2)`. -/
theorem variable_allocates_by_type_witness :
    (scenario_sized.Sized 2 2 ∧ (0 : Int) ≤ 0 ∧ (0 : Int) < (2 : Nat)) ∧
      (∃ b' col, scenario_sized.variable 0 "a" none none none .READSTAT_TYPE_INT32 =
          .ok (b', 0) ∧
        b'.output_.elts[(0 : Int).toNat]? = some col ∧ col.length = 2 ∧
        col.kind = some .integer ∧ b'.names_ = ["a", ""] ∧
        b'.output_.elts[1]? = some .NilValue) ∧
      feed scenario_sized (scenario_declarations.map VariableDecl.event) =
        .ok (scenario_builder, 0) := by
  obtain ⟨b', col, h1, h2, h3, _, h5, _, _, _, _, _⟩ :=
    variable_allocates_by_type scenario_sized 2 2 0 "a" none none none .READSTAT_TYPE_INT32
      ⟨rfl, rfl, rfl, rfl, rfl⟩ (by decide) (by decide)
  refine ⟨⟨⟨rfl, rfl, rfl, rfl, rfl⟩, by decide, by decide⟩, ⟨b', col, h1, h2, h3,
    h5 (Or.inr rfl), ?_, ?_⟩, rfl⟩
  · have : scenario_sized.variable 0 "a" none none none .READSTAT_TYPE_INT32 =
        .ok (DfBuilder.declare scenario_sized 2 0 "a" none none .READSTAT_TYPE_INT32, 0) := rfl
    rw [this] at h1
    cases h1
    rfl
  · have : scenario_sized.variable 0 "a" none none none .READSTAT_TYPE_INT32 =
        .ok (DfBuilder.declare scenario_sized 2 0 "a" none none .READSTAT_TYPE_INT32, 0) := rfl
    rw [this] at h1
    cases h1
    rfl

/-! ## Polling and status -/

theorem set_elt_error {α : Type} {xs : List α} {i : Int} {a : α} {f : Fault}
    (h : set_elt xs i a = .error f) : f = .out_of_bounds := by
  unfold set_elt at h
  split at h
  · cases h
  · cases h
    rfl

theorem get_elt_error {α : Type} {xs : List α} {i : Int} {f : Fault}
    (h : get_elt xs i = .error f) : f = .out_of_bounds := by
  unfold get_elt at h
  split at h
  · cases h
    rfl
  · split at h
    · cases h
    · cases h
      rfl

theorem assign_cell_error {x : SEXP} {obs : Int} {v : readstat_value}
    {ty : readstat_types_t} {f : Fault} (h : assign_cell x obs v ty = .error f) :
    f ≠ .interrupted := by
  cases x <;> cases ty <;>
    simp only [assign_cell, assign_string, assign_int, assign_real, bind, Except.bind, pure,
      Except.pure] at h <;>
    (try split at h) <;> (try split at h) <;> (try cases h) <;>
    first
      | decide
      | (rename_i hs
         rw [set_elt_error hs]
         decide)

/-- The store after the interrupt check is never left by the interrupt exception. -/
theorem store_not_interrupted (b : DfBuilder) (obs var : Int) (v : readstat_value)
    (ty : readstat_types_t) : b.store obs var v ty ≠ .error .interrupted := by
  intro h
  unfold DfBuilder.store at h
  simp only [bind, Except.bind, pure, Except.pure] at h
  split at h
  · rename_i f hg
    cases h
    exact absurd (get_elt_error hg) (by decide)
  · split at h
    · rename_i f ha
      cases h
      exact assign_cell_error ha rfl
    · split at h
      · rename_i f hs
        cases h
        exact absurd (set_elt_error hs) (by decide)
      · cases h

/-- C17 as stated fails in its last sentence: with no interrupt pending, an INT32 value
event addressed to the text column of the text scenario does not return 0; the integer view
of a character vector is refused and the handler is left by that exception. -/
theorem value_on_text_column_does_not_return :
    feed DfBuilder.new (stream 1 1 text_declarations []) = .ok (text_builder, 0) ∧
      text_builder.value false 0 0 (int_value 1) .READSTAT_TYPE_INT32 =
        .error .not_compatible ∧
      ¬ ∃ b', text_builder.value false 0 0 (int_value 1) .READSTAT_TYPE_INT32 =
        .ok (b', 0) := by
  have h : text_builder.value false 0 0 (int_value 1) .READSTAT_TYPE_INT32 =
      .error .not_compatible := rfl
  refine ⟨rfl, h, ?_⟩
  rintro ⟨b', hb⟩
  rw [h] at hb
  cases hb

/-- C17, amended: `value(obs, var, ...)` consults the host interrupt signal exactly when
`obs % 1000 == 0` or `var % 1000 == 0`: with an interrupt pending it is left by the
interrupt exception exactly then, in particular on every event whose `var` is a multiple of
1000, and when neither index is a multiple of 1000 the pending flag has no effect on the
outcome.  With no interrupt pending, every call that returns, returns 0, and every in-range
call whose type has the kind of the addressed column does return; a call of an integer or
real type whose column is a text column or an undeclared slot does not return: it is left by
the exception that refuses the requested vector view, whatever the row. -/
theorem value_polls_on_stride (b : DfBuilder) (obs_index var_index : Int)
    (value : readstat_value) (type : readstat_types_t) :
    (b.value true obs_index var_index value type = .error .interrupted ↔
        (Int.tmod obs_index 1000 = 0 ∨ Int.tmod var_index 1000 = 0)) ∧
      (Int.tmod var_index 1000 = 0 →
        b.value true obs_index var_index value type = .error .interrupted) ∧
      (Int.tmod obs_index 1000 ≠ 0 → Int.tmod var_index 1000 ≠ 0 →
        b.value true obs_index var_index value type =
          b.value false obs_index var_index value type) ∧
      (∀ b' st, b.value false obs_index var_index value type = .ok (b', st) → st = 0) ∧
      (∀ col, 0 ≤ obs_index → 0 ≤ var_index →
        b.output_.elts[var_index.toNat]? = some col → obs_index < col.length →
        col.kind = some (kind_of type) →
        ∃ b', b.value false obs_index var_index value type = .ok (b', 0)) ∧
      (∀ col, 0 ≤ var_index → b.output_.elts[var_index.toNat]? = some col →
        (col.kind = some .text ∨ col = .NilValue) →
        (kind_of type = .integer ∨ kind_of type = .real) →
        b.value false obs_index var_index value type = .error .not_compatible) := by
  have hstride : stride_boundary obs_index var_index = true ↔
      (Int.tmod obs_index 1000 = 0 ∨ Int.tmod var_index 1000 = 0) := by
    simp [stride_boundary]
  refine ⟨?_, ?_, ?_, fun b' st h => (value_returns h).1, ?_, ?_⟩
  · rw [value_eq]
    constructor
    · intro h
      by_cases hs : stride_boundary obs_index var_index = true
      · exact hstride.mp hs
      · rw [if_neg (fun hc => hs hc.1)] at h
        exact absurd h (store_not_interrupted b obs_index var_index value type)
    · intro h
      rw [if_pos ⟨hstride.mpr h, rfl⟩]
  · intro h
    rw [value_eq, if_pos ⟨hstride.mpr (Or.inr h), rfl⟩]
  · intro h1 h2
    have hs : ¬ stride_boundary obs_index var_index = true := fun hc =>
      (hstride.mp hc).elim h1 h2
    rw [value_eq, value_eq, if_neg (fun hc => hs hc.1), if_neg (fun hc => hs hc.1)]
  · intro col hobs hvar hcol hrange hkind
    obtain ⟨o, rfl⟩ := Int.eq_ofNat_of_zero_le hobs
    obtain ⟨j, rfl⟩ := Int.eq_ofNat_of_zero_le hvar
    simp only [Int.toNat_ofNat] at hcol
    exact ⟨_, value_ok b o j value type col hcol hkind (by exact_mod_cast hrange)⟩
  · intro col hvar hcol hview hnum
    obtain ⟨j, rfl⟩ := Int.eq_ofNat_of_zero_le hvar
    simp only [Int.toNat_ofNat] at hcol
    have hstore : b.store obs_index (j : Int) value type = .error .not_compatible := by
      unfold DfBuilder.store
      rw [get_elt_natCast, hcol]
      cases col <;> cases type <;>
        simp_all [SEXP.kind, kind_of, assign_cell, assign_int, assign_real, bind,
          Except.bind]
    rw [value_eq, if_neg (fun hc => by cases hc.2), hstore]

/-! ## Frame of `value` -/

/-- C18: for an in-range value event with no interrupt pending, every return of `value`
leaves a state that differs from the one before at most in cell `obs` of column `var`:
counts, names, display labels, value-label references, the registry and the attributes of
the result list are the same, every other column is the same, no column changes kind, length
or label, and every cell other than the addressed one reads as before.  When the type has
the kind of the column, `value` does return. -/
theorem value_changes_one_cell (b : DfBuilder) (obs_index var_index : Int)
    (value : readstat_value) (type : readstat_types_t) (col : SEXP)
    (hobs : 0 ≤ obs_index) (hvar : 0 ≤ var_index)
    (hcol : b.output_.elts[var_index.toNat]? = some col)
    (hrange : obs_index < col.length) :
    (∀ b' st, b.value false obs_index var_index value type = .ok (b', st) →
      (b'.nrows_ = b.nrows_ ∧ b'.ncols_ = b.ncols_ ∧ b'.names_ = b.names_ ∧
        b'.labels_ = b.labels_ ∧ b'.val_labels_ = b.val_labels_ ∧
        b'.label_sets_ = b.label_sets_) ∧
      (b'.output_.names = b.output_.names ∧ b'.output_.class_ = b.output_.class_ ∧
        b'.output_.row_names = b.output_.row_names) ∧
      b'.output_.elts.length = b.output_.elts.length ∧
      (∀ j, j ≠ var_index.toNat → b'.output_.elts[j]? = b.output_.elts[j]?) ∧
      b'.output_.elts.map SEXP.shape = b.output_.elts.map SEXP.shape ∧
      (∀ o j, ¬ (o = obs_index.toNat ∧ j = var_index.toNat) → b'.cell o j = b.cell o j)) ∧
    (col.kind = some (kind_of type) →
      ∃ b', b.value false obs_index var_index value type = .ok (b', 0)) := by
  constructor
  · intro b' st hret
    have hshape := value_keeps_shapes hret
    obtain ⟨_, _, c, c', hc, hassign, rfl⟩ := value_returns hret
    obtain ⟨_, _, _, hcells⟩ := assign_cell_frame hassign
    refine ⟨⟨rfl, rfl, rfl, rfl, rfl, rfl⟩, ⟨rfl, rfl, rfl⟩, by simp [DfBuilder.with_column],
      ?_, hshape, ?_⟩
    · intro j hj
      simp [DfBuilder.with_column, List.getElem?_set, Ne.symm hj]
    · intro o j hne
      by_cases hj : var_index.toNat = j
      · subst hj
        have ho : o ≠ obs_index.toNat := fun h => hne ⟨h, rfl⟩
        rw [with_column_cell_same _ _ _ _ (getElem?_lt_length hc), hcells o ho]
        simp [DfBuilder.cell, hc]
      · exact with_column_cell_other _ _ _ _ _ hj
  · intro hkind
    obtain ⟨o, rfl⟩ := Int.eq_ofNat_of_zero_le hobs
    obtain ⟨j, rfl⟩ := Int.eq_ofNat_of_zero_le hvar
    simp only [Int.toNat_ofNat] at hcol
    exact ⟨_, value_ok b o j value type col hcol hkind (by exact_mod_cast hrange)⟩

/-- C18 at the first value event of the first scenario. -/
theorem value_changes_one_cell_witness :
    ∃ b', scenario_builder.value false 0 0 (int_value 1) .READSTAT_TYPE_INT32 = .ok (b', 0) ∧
      b'.names_ = scenario_builder.names_ ∧ b'.label_sets_ = scenario_builder.label_sets_ ∧
      b'.output_.elts[1]? = scenario_builder.output_.elts[1]? ∧
      b'.cell 1 0 = scenario_builder.cell 1 0 ∧ b'.cell 0 0 = some (.integer 1) := by
  obtain ⟨hframe, hret⟩ := value_changes_one_cell scenario_builder 0 0 (int_value 1)
    .READSTAT_TYPE_INT32 (.INTSXP [0, 0] none) (by decide) (by decide) rfl (by decide)
  obtain ⟨b', hb'⟩ := hret rfl
  obtain ⟨⟨_, _, hn, _, _, hl⟩, _, _, hother, _, hcells⟩ := hframe b' 0 hb'
  refine ⟨b', hb', hn, hl, hother 1 (by decide), hcells 1 0 (by decide), ?_⟩
  have : scenario_builder.value false 0 0 (int_value 1) .READSTAT_TYPE_INT32 =
      .ok (scenario_builder.with_column 0 (.INTSXP [1, 0] none), 0) := rfl
  rw [this] at hb'
  cases hb'
  rfl

/-! ## Order of value events -/

theorem put_put_comm (x : SEXP) (o1 o2 : Nat) (v1 v2 : readstat_value)
    (t1 t2 : readstat_types_t) (hne : o1 ≠ o2) :
    (x.put o1 (written_cell v1 t1)).put o2 (written_cell v2 t2) =
      (x.put o2 (written_cell v2 t2)).put o1 (written_cell v1 t1) := by
  cases x <;> cases t1 <;> cases t2 <;>
    simp [written_cell, SEXP.put, List.set_comm _ _ _ hne]

theorem put_put_same (x : SEXP) (o : Nat) (v1 v2 : readstat_value)
    (t1 t2 : readstat_types_t) (hk1 : x.kind = some (kind_of t1))
    (hk2 : x.kind = some (kind_of t2)) :
    (x.put o (written_cell v1 t1)).put o (written_cell v2 t2) =
      x.put o (written_cell v2 t2) := by
  cases x <;> cases t1 <;> cases t2 <;>
    simp_all [SEXP.kind, kind_of, written_cell, SEXP.put]

/-- Two fitting value events in a row: the state they lead to. -/
theorem feed_two_values (b : DfBuilder) (e1 e2 : ValueDatum)
    (h1 : e1.Fits (b.output_.elts.map SEXP.shape))
    (h2 : e2.Fits (b.output_.elts.map SEXP.shape)) :
    ∃ col1 col2 col2',
      b.output_.elts[e1.var_index.toNat]? = some col1 ∧
      b.output_.elts[e2.var_index.toNat]? = some col2 ∧
      col1.kind = some (kind_of e1.type) ∧ col2.kind = some (kind_of e2.type) ∧
      col2' = (if e1.var_index.toNat = e2.var_index.toNat then
        col1.put e1.obs_index.toNat (written_cell e1.value e1.type) else col2) ∧
      feed b [e2.event] =
        .ok (b.with_column e2.var_index.toNat
          (col2.put e2.obs_index.toNat (written_cell e2.value e2.type)), 0) ∧
      feed b [e1.event, e2.event] =
        .ok ((b.with_column e1.var_index.toNat
            (col1.put e1.obs_index.toNat (written_cell e1.value e1.type))).with_column
          e2.var_index.toNat
          (col2'.put e2.obs_index.toNat (written_cell e2.value e2.type)), 0) := by
  obtain ⟨col1, hc1, hk1, _, hs1⟩ := value_fits_step b e1 h1
  obtain ⟨col2, hc2, hk2, _, hs2⟩ := value_fits_step b e2 h2
  have hsh := with_column_shape b e1.var_index.toNat col1
    (col1.put e1.obs_index.toNat (written_cell e1.value e1.type)) hc1 (put_shape _ _ _)
  obtain ⟨col2', hc2', _, _, hs2'⟩ := value_fits_step
    (b.with_column e1.var_index.toNat
      (col1.put e1.obs_index.toNat (written_cell e1.value e1.type))) e2 (by rw [hsh]; exact h2)
  refine ⟨col1, col2, col2', hc1, hc2, hk1, hk2, ?_, ?_, ?_⟩
  · have hlt := getElem?_lt_length hc1
    simp only [DfBuilder.with_column, List.getElem?_set] at hc2'
    split
    · rename_i heq
      rw [if_pos heq, if_pos hlt] at hc2'
      exact (Option.some.inj hc2').symm
    · rename_i hneq
      rw [if_neg hneq, hc2] at hc2'
      exact (Option.some.inj hc2').symm
  · rw [feed_cons_ok _ hs2]
    rfl
  · rw [feed_cons_ok _ hs1, feed_cons_ok _ hs2']
    rfl

/-- C19: two in-range, kind-matching value events with no interrupt pending both return
0; if they address different cells, delivering them in either order leads to the same
builder state; if they address the same cell, delivering the first and then the second
leads to the state the second alone leads to. -/
theorem value_events_commute (b : DfBuilder) (e1 e2 : ValueDatum)
    (h1 : e1.Fits (b.output_.elts.map SEXP.shape))
    (h2 : e2.Fits (b.output_.elts.map SEXP.shape)) :
    (∃ b12, feed b [e1.event, e2.event] = .ok (b12, 0)) ∧
      ((e1.obs_index, e1.var_index) ≠ (e2.obs_index, e2.var_index) →
        feed b [e1.event, e2.event] = feed b [e2.event, e1.event]) ∧
      ((e1.obs_index, e1.var_index) = (e2.obs_index, e2.var_index) →
        feed b [e1.event, e2.event] = feed b [e2.event]) := by
  obtain ⟨c1, c2, c2', hc1, hc2, hk1, hk2, hc2', hsingle, h12⟩ := feed_two_values b e1 e2 h1 h2
  obtain ⟨d2, d1, d1', hd2, hd1, _, _, hd1', _, h21⟩ := feed_two_values b e2 e1 h2 h1
  have e_c1 : d1 = c1 := Option.some.inj (hd1.symm.trans hc1)
  have e_c2 : d2 = c2 := Option.some.inj (hd2.symm.trans hc2)
  subst e_c1 e_c2
  refine ⟨⟨_, h12⟩, ?_, ?_⟩
  · intro hne
    rw [h12, h21]
    by_cases hj : e1.var_index.toNat = e2.var_index.toNat
    · have hcol : d1 = d2 := by
        rw [hj] at hc1
        exact Option.some.inj (hc1.symm.trans hc2)
      subst hcol
      have ho : e1.obs_index.toNat ≠ e2.obs_index.toNat := by
        intro ho
        apply hne
        have hv : e1.var_index = e2.var_index := by
          have := h1.2.1
          have := h2.2.1
          omega
        have hobs : e1.obs_index = e2.obs_index := by
          have := h1.1
          have := h2.1
          omega
        rw [hv, hobs]
      rw [if_pos hj] at hc2'
      rw [if_pos hj.symm] at hd1'
      subst hc2' hd1'
      simp only [DfBuilder.with_column, hj, List.set_set]
      rw [put_put_comm _ _ _ _ _ _ _ ho]
    · rw [if_neg hj] at hc2'
      rw [if_neg (Ne.symm hj)] at hd1'
      subst hc2' hd1'
      simp only [DfBuilder.with_column]
      rw [List.set_comm _ _ _ hj]
  · intro heq
    have hv : e1.var_index = e2.var_index := (Prod.mk.inj heq).2
    have ho : e1.obs_index = e2.obs_index := (Prod.mk.inj heq).1
    have hj : e1.var_index.toNat = e2.var_index.toNat := by rw [hv]
    have hcol : d1 = d2 := by
      rw [hj] at hc1
      exact Option.some.inj (hc1.symm.trans hc2)
    subst hcol
    rw [if_pos hj] at hc2'
    subst hc2'
    rw [h12, hsingle]
    simp only [DfBuilder.with_column, hj, ho, List.set_set]
    rw [put_put_same _ _ _ _ _ _ hk1 hk2]

/-- C19 at the first scenario: the values for cells (0,0) and (1,0) in either order, and two
values for cell (0,0). -/
theorem value_events_commute_witness :
    (ValueDatum.Fits (scenario_builder.output_.elts.map SEXP.shape)
        { obs_index := 0, var_index := 0, value := int_value 1,
          type := .READSTAT_TYPE_INT32 } ∧
      ValueDatum.Fits (scenario_builder.output_.elts.map SEXP.shape)
        { obs_index := 1, var_index := 0, value := int_value 5,
          type := .READSTAT_TYPE_INT16 }) ∧
    feed scenario_builder
        [.value 0 0 (int_value 1) .READSTAT_TYPE_INT32,
         .value 1 0 (int_value 5) .READSTAT_TYPE_INT16] =
      feed scenario_builder
        [.value 1 0 (int_value 5) .READSTAT_TYPE_INT16,
         .value 0 0 (int_value 1) .READSTAT_TYPE_INT32] ∧
    feed scenario_builder
        [.value 0 0 (int_value 1) .READSTAT_TYPE_INT32,
         .value 0 0 (int_value 5) .READSTAT_TYPE_INT16] =
      .ok (scenario_builder.with_column 0 (.INTSXP [5, 0] none), 0) := by
  have f1 : ValueDatum.Fits (scenario_builder.output_.elts.map SEXP.shape)
      { obs_index := 0, var_index := 0, value := int_value 1,
        type := .READSTAT_TYPE_INT32 } :=
    ⟨by decide, by decide, 2, none, rfl, by decide⟩
  have f2 : ValueDatum.Fits (scenario_builder.output_.elts.map SEXP.shape)
      { obs_index := 1, var_index := 0, value := int_value 5,
        type := .READSTAT_TYPE_INT16 } :=
    ⟨by decide, by decide, 2, none, rfl, by decide⟩
  exact ⟨⟨f1, f2⟩, (value_events_commute scenario_builder _ _ f1 f2).2.1 (by decide), rfl⟩

/-! ## Present integers and the sentinel -/

theorem int16_value_ne_sentinel (v : readstat_value) : readstat_int16_value v ≠ NA_INTEGER := by
  intro hc
  have h := @Int.le_bmod v.i16 (2 ^ 16) (by norm_num)
  unfold readstat_int16_value at hc
  rw [hc] at h
  simp [NA_INTEGER] at h

/-- C20 as stated fails for INT32: a present INT32 value whose accessor returns `-2^31` is
stored as `NA_INTEGER`. -/
theorem present_int32_stored_as_sentinel :
    readstat_value_is_missing (int_value (-2147483648)) = false ∧
      readstat_int32_value (int_value (-2147483648)) = -2147483648 ∧
      scenario_builder.value false 0 0 (int_value (-2147483648)) .READSTAT_TYPE_INT32 =
        .ok (scenario_builder.with_column 0 (.INTSXP [NA_INTEGER, 0] none), 0) ∧
      (scenario_builder.with_column 0 (.INTSXP [NA_INTEGER, 0] none)).cell 0 0 =
        some (.integer NA_INTEGER) :=
  ⟨rfl, rfl, rfl, rfl⟩

/-- C20, amended: a present INT16 value is never stored as the missing sentinel, its
accessor's range excluding `-2^31`; a present INT32 value is stored as its accessor returns
it, so the stored cell is `NA_INTEGER` exactly when the accessor returns `-2^31`.  In the
output of a well-formed stream in which no cell is addressed twice, a cell of an integer
column equals `NA_INTEGER` only if a value event addressed it and either reported missing or
was a present INT32 value whose accessor returned `-2^31`; a cell no event addressed holds
`0`. -/
theorem present_integer_and_sentinel (b : DfBuilder) (obs_index var_index : Int)
    (value : readstat_value) (col : SEXP) (hobs : 0 ≤ obs_index) (hvar : 0 ≤ var_index)
    (hcol : b.output_.elts[var_index.toNat]? = some col)
    (hrange : obs_index < col.length) (hkind : col.kind = some .integer)
    (hpresent : readstat_value_is_missing value = false) :
    (∃ b', b.value false obs_index var_index value .READSTAT_TYPE_INT16 = .ok (b', 0) ∧
      b'.cell obs_index.toNat var_index.toNat =
        some (.integer (readstat_int16_value value)) ∧
      b'.cell obs_index.toNat var_index.toNat ≠ some (.integer NA_INTEGER)) ∧
    (∃ b', b.value false obs_index var_index value .READSTAT_TYPE_INT32 = .ok (b', 0) ∧
      b'.cell obs_index.toNat var_index.toNat =
        some (.integer (readstat_int32_value value)) ∧
      (b'.cell obs_index.toNat var_index.toNat = some (.integer NA_INTEGER) ↔
        readstat_int32_value value = -2147483648)) ∧
    (∀ (N M : Int) (vars : List VariableDecl) (vals : List ValueDatum),
      WellFormed N M vars vals → (vals.map ValueDatum.address).Nodup →
      ∃ bf, feed DfBuilder.new (stream N M vars vals) = .ok (bf, 0) ∧
        ∀ d ∈ vars, kind_of d.type = .integer → ∀ o, o < N.toNat →
          ((o, d.index.toNat) ∉ vals.map ValueDatum.address →
            (bf.output).2.cell o d.index.toNat = some (.integer 0)) ∧
          ((bf.output).2.cell o d.index.toNat = some (.integer NA_INTEGER) →
            ∃ e ∈ vals, e.address = (o, d.index.toNat) ∧
              (readstat_value_is_missing e.value = true ∨
                (e.type = .READSTAT_TYPE_INT32 ∧
                  readstat_int32_value e.value = -2147483648)))) := by
  refine ⟨?_, ?_, ?_⟩
  · obtain ⟨o, rfl⟩ := Int.eq_ofNat_of_zero_le hobs
    obtain ⟨j, rfl⟩ := Int.eq_ofNat_of_zero_le hvar
    simp only [Int.toNat_ofNat] at hcol ⊢
    have ho : o < col.length := by exact_mod_cast hrange
    have hk : col.kind = some (kind_of .READSTAT_TYPE_INT16) := hkind
    have hw : written_cell value .READSTAT_TYPE_INT16 = .integer (readstat_int16_value value) := by
      simp [written_cell, hpresent]
    have hcell : (b.with_column j
        (col.put o (written_cell value .READSTAT_TYPE_INT16))).cell o j =
        some (.integer (readstat_int16_value value)) := by
      rw [value_ok_cell b o j value .READSTAT_TYPE_INT16 col hcol hk ho, hw]
    refine ⟨_, value_ok b o j value _ col hcol hk ho, hcell, ?_⟩
    rw [hcell]
    simpa using int16_value_ne_sentinel value
  · obtain ⟨o, rfl⟩ := Int.eq_ofNat_of_zero_le hobs
    obtain ⟨j, rfl⟩ := Int.eq_ofNat_of_zero_le hvar
    simp only [Int.toNat_ofNat] at hcol ⊢
    have ho : o < col.length := by exact_mod_cast hrange
    have hk : col.kind = some (kind_of .READSTAT_TYPE_INT32) := hkind
    have hw : written_cell value .READSTAT_TYPE_INT32 = .integer (readstat_int32_value value) := by
      simp [written_cell, hpresent]
    have hcell : (b.with_column j
        (col.put o (written_cell value .READSTAT_TYPE_INT32))).cell o j =
        some (.integer (readstat_int32_value value)) := by
      rw [value_ok_cell b o j value .READSTAT_TYPE_INT32 col hcol hk ho, hw]
    refine ⟨_, value_ok b o j value _ col hcol hk ho, hcell, ?_⟩
    rw [hcell]
    simp [NA_INTEGER]
  · intro N M vars vals hwf hnd
    obtain ⟨bf, hrun, _, _, hdecl, hfresh, hlast⟩ := run_wellformed N M vars vals hwf
    refine ⟨bf, hrun, fun d hd hdk o ho => ⟨fun hnot => ?_, fun hna => ?_⟩⟩
    · have := hfresh d hd o ho hnot
      rw [hdk] at this
      exact this
    · by_cases hmem : (o, d.index.toNat) ∈ vals.map ValueDatum.address
      · obtain ⟨e, he, haddr⟩ := List.mem_map.mp hmem
        refine ⟨e, he, haddr, ?_⟩
        have hcell : (bf.output).2.cell e.obs_index.toNat e.var_index.toNat =
            some (written_cell e.value e.type) := hlast hnd e he
        have ho' : e.obs_index.toNat = o := (Prod.mk.inj haddr).1
        have hj' : e.var_index.toNat = d.index.toNat := (Prod.mk.inj haddr).2
        rw [ho', hj', hna] at hcell
        obtain ⟨_, _, d', hd', hidx, hkk⟩ := hwf.2.2.2 e he
        have hsame : kind_of d'.type = kind_of d.type := by
          obtain ⟨c, hc, hsh, _⟩ := hdecl d hd
          obtain ⟨c', hc', hsh', _⟩ := hdecl d' hd'
          rw [hidx, hj', hc] at hc'
          cases hc'
          simp only [SEXP.shape, Prod.mk.injEq] at hsh hsh'
          exact Option.some.inj (hsh'.1.symm.trans hsh.1)
        have hek : kind_of e.type = .integer := by rw [← hkk, hsame, hdk]
        cases hm : readstat_value_is_missing e.value with
        | true => exact Or.inl rfl
        | false =>
          right
          cases hty : e.type <;> rw [hty] at hek hcell <;>
            simp [kind_of, written_cell, hm] at hek hcell
          · exact absurd hcell.symm (int16_value_ne_sentinel e.value)
          · exact ⟨rfl, by simpa [NA_INTEGER] using hcell.symm⟩
      · have := hfresh d hd o ho hmem
        rw [hdk] at this
        have h0 : (bf.output).2.cell o d.index.toNat = some (.integer 0) := this
        rw [h0] at hna
        simp [NA_INTEGER] at hna

/-- C20, amended, at column `a` of the first scenario. -/
theorem present_integer_and_sentinel_witness :
    (∃ b', scenario_builder.value false 0 0 (int_value 70000) .READSTAT_TYPE_INT16 =
        .ok (b', 0) ∧
      b'.cell (0 : Int).toNat (0 : Int).toNat =
        some (.integer (readstat_int16_value (int_value 70000))) ∧
      b'.cell (0 : Int).toNat (0 : Int).toNat ≠ some (.integer NA_INTEGER)) ∧
    readstat_int16_value (int_value 70000) = 4464 :=
  ⟨(present_integer_and_sentinel scenario_builder 0 0 (int_value 70000) (.INTSXP [0, 0] none)
      (by decide) (by decide) rfl (by decide) rfl rfl).1,
    rfl⟩

end Haven
